import Mathlib

/-!
Verification development for the UWS orchestrator control plane.

The Python source (service_launcher.py, service_manager.py,
service_health.py, node_manager.py, container_manager.py, health.py,
websocket_proxy.py, database.py) is shallowly embedded below: catalog
rows become Lean structures, SQLAlchemy sessions become explicit
catalog-state passing, and every outbound HTTP call is resolved by an
oracle value supplied as an argument.  Timestamps are plain naturals.
-/

namespace UWS

/-! ## Python-style string primitives, modelled on `List Char` -/

/-- Worker for `replaceAllL`: the fuel argument (instantiated with the
input length) only makes the recursion structural; each step consumes at
least one character, so the fuel never runs out. -/
def replaceAllAux (pat rep : List Char) : Nat → List Char → List Char
  | 0, l => l
  | _ + 1, [] => []
  | fuel + 1, c :: rest =>
    if pat.isPrefixOf (c :: rest) ∧ pat ≠ [] then
      rep ++ replaceAllAux pat rep fuel (rest.drop (pat.length - 1))
    else
      c :: replaceAllAux pat rep fuel rest

/-- Python `str.replace(pat, rep)`: replace every non-overlapping
occurrence of `pat`, scanning left to right.  An empty pattern is
treated as matching nowhere (the source only uses non-empty patterns). -/
def replaceAllL (pat rep l : List Char) : List Char :=
  replaceAllAux pat rep l.length l

/-- Python `pat in s` (substring containment) for non-empty `pat`. -/
def hasSubstrL (pat : List Char) : List Char → Bool
  | [] => false
  | c :: rest => pat.isPrefixOf (c :: rest) || hasSubstrL pat rest

/-- Worker for `splitOnL`, fuelled like `replaceAllAux`. -/
def splitOnAux (sep : List Char) : Nat → List Char → List Char → List (List Char)
  | 0, _, cur => [cur.reverse]
  | _ + 1, [], cur => [cur.reverse]
  | fuel + 1, c :: rest, cur =>
    if sep.isPrefixOf (c :: rest) ∧ sep ≠ [] then
      cur.reverse :: splitOnAux sep fuel (rest.drop (sep.length - 1)) []
    else
      splitOnAux sep fuel rest (c :: cur)

/-- Python `str.split(sep)` for a non-empty separator. -/
def splitOnL (sep l : List Char) : List (List Char) :=
  splitOnAux sep l.length l []

def pyReplace (s pat rep : String) : String :=
  ⟨replaceAllL pat.data rep.data s.data⟩

def pyContains (s pat : String) : Bool :=
  hasSubstrL pat.data s.data

def pySplitOn (s sep : String) : List String :=
  (splitOnL sep.data s.data).map fun l => ⟨l⟩

/-- Python `str.strip()` (whitespace at both ends). -/
def pyStrip (s : String) : String :=
  ⟨((s.data.dropWhile Char.isWhitespace).reverse.dropWhile Char.isWhitespace).reverse⟩

/-- Python `str.rstrip("/")`. -/
def pyRstripSlash (s : String) : String :=
  ⟨(s.data.reverse.dropWhile (fun c => c == '/')).reverse⟩

/-- Python `str.endswith(pat)`. -/
def pyEndsWith (s pat : String) : Bool :=
  pat.data.isSuffixOf s.data

/-! ## Docker ports JSON model

The node's `GET /containers/{id}/ports` body has shape
`{"ports": {"8010/tcp": [{"HostPort": "32770"}], ...}}`, and the per-key
value may be a list of dicts, an int, or something else; `ports` may also
appear at the top level (spec section 6).  JSON objects are modelled as
insertion-ordered association lists. -/

/-- One element of a port-binding list: a dict that does or does not
carry a `"HostPort"` key (the decimal string already converted). -/
inductive PortsItem where
  | hostPort (n : Nat)
  | noHostPort
deriving DecidableEq, Repr

/-- A value of the ports dict: a list of binding dicts, a bare int, or
any other JSON value. -/
inductive PortsVal where
  | plist (items : List PortsItem)
  | pint (n : Nat)
  | other
deriving DecidableEq, Repr

/-- `extract_host_port` (service_launcher.py lines 34-42). -/
def extract_host_port : PortsVal → Option Nat
  | .plist (first :: _) =>
    match first with
    | .hostPort n => some n
    | .noHostPort => none
  | .plist [] => none
  | .pint n => some n
  | .other => none

/-- Python truthiness of the `service_port_num` variable: `None` and
`0` are falsy. -/
def truthyPort : Option Nat → Bool
  | some n => n != 0
  | none => false

/-- `service_port.replace("/tcp", "").replace("/udp", "")`. -/
def stripProto (s : String) : String :=
  pyReplace (pyReplace s "/tcp" "") "/udp" ""

/-- First value of the dict under a key (dict keys are unique). -/
def lookupKey (pd : List (String × PortsVal)) (k : String) : Option PortsVal :=
  (pd.find? (fun kv => kv.1 == k)).map (·.2)

/-- Strategy 2 of `wait_for_service_container` (lines 100-114): walk the
dict and on the first key whose numeric base matches, extract and break
(even when extraction yields `None`). -/
def strategyTwo (pd : List (String × PortsVal)) (base : String) : Option Nat :=
  match pd.find? (fun kv => stripProto kv.1 == base) with
  | some kv => extract_host_port kv.2
  | none => none

/-- Strategy 3 (lines 116-128): first entry whose extracted port is
truthy. -/
def strategyThree (pd : List (String × PortsVal)) : Option Nat :=
  match pd.find? (fun kv => truthyPort (extract_host_port kv.2)) with
  | some kv => extract_host_port kv.2
  | none => none

/-- The port-selection block of `wait_for_service_container`
(service_launcher.py lines 92-136), as the source orders it:
strategy 1 when the exact key is present, otherwise (`elif`) strategy 2;
strategy 3 runs whenever the accumulated value is not truthy, and the
attempt succeeds only if the final value is truthy. -/
def select_service_port (pd : List (String × PortsVal)) (sp : String) : Option Nat :=
  let s12 : Option Nat :=
    match lookupKey pd sp with
    | some v => extract_host_port v
    | none => strategyTwo pd (stripProto sp)
  let final : Option Nat :=
    if truthyPort s12 then s12
    else
      match strategyThree pd with
      | some n => some n
      | none => s12
  if truthyPort final then final else none

/-- Modelled from the claim text of C2 (spec section 4.F): try
strategy 1, then strategy 2, then strategy 3, strictly in order; the
first strategy that yields a non-null host port wins.  Strategy 2 is
read as yielding the first numeric-base match with a non-null port. -/
def claimed_select_port (pd : List (String × PortsVal)) (sp : String) : Option Nat :=
  let s1 : Option Nat :=
    match lookupKey pd sp with
    | some v => extract_host_port v
    | none => none
  match s1 with
  | some n => some n
  | none =>
    let base := stripProto sp
    match pd.find? (fun kv => stripProto kv.1 == base && (extract_host_port kv.2).isSome) with
    | some kv => extract_host_port kv.2
    | none =>
      match pd.find? (fun kv => (extract_host_port kv.2).isSome) with
      | some kv => extract_host_port kv.2
      | none => none

/-! ## Catalog data model (database.py)

Rows of the relational catalog.  `DateTime` columns are naturals
(seconds); SQLAlchemy identity-mapped mutation becomes functional row
update keyed by primary key. -/

/-- `Node` (database.py lines 25-36). -/
structure NodeRow where
  node_id : String
  url : String
  is_healthy : Bool
  last_health_check : Nat
  last_seen : Nat
  registered_at : Nat
deriving DecidableEq, Repr

/-- `Container` (database.py lines 49-66); the JSON/resource columns
not read by the control-plane core are omitted. -/
structure ContainerRow where
  container_id : String
  user_id : String
  node_id : String
  image : String
  name : String
  status : String
  created_at : Nat
deriving DecidableEq, Repr

/-- Extra columns carried only by the `db_services` table
(database.py lines 99-106). -/
structure DBExtras where
  max_cpu_percent : Int
  max_ram_mb : Int
  max_disk_gb : Int
  database_name : String
  instance_name : Option String
deriving DecidableEq, Repr

/-- Common shape of `BucketService`, `DBService`, `NoSQLService`,
`QueueService` and `SecretsService` rows (database.py lines 69-160).
`dbExtras` is populated only for rows of the `db_services` table and is
`none` everywhere else. -/
structure ServiceRow where
  service_id : String
  container_id : String
  node_id : String
  ip_address : String
  port : Nat
  status : String
  is_healthy : Bool
  last_health_check : Nat
  created_at : Nat
  dbExtras : Option DBExtras
deriving DecidableEq, Repr

/-- The five managed-service kinds. -/
inductive ServiceKind where
  | bucket | db | nosql | queue | secrets
deriving DecidableEq, Repr

/-- The durable catalog: one list per table, in insertion order
(SQLAlchemy `query(...).all()` returns insertion order for these
tables). -/
structure Catalog where
  nodes : List NodeRow
  containers : List ContainerRow
  bucket_services : List ServiceRow
  db_services : List ServiceRow
  nosql_services : List ServiceRow
  queue_services : List ServiceRow
  secrets_services : List ServiceRow
deriving DecidableEq, Repr

def Catalog.empty : Catalog := ⟨[], [], [], [], [], [], []⟩

def getServices (k : ServiceKind) (cat : Catalog) : List ServiceRow :=
  match k with
  | .bucket => cat.bucket_services
  | .db => cat.db_services
  | .nosql => cat.nosql_services
  | .queue => cat.queue_services
  | .secrets => cat.secrets_services

def setServices (k : ServiceKind) (cat : Catalog) (l : List ServiceRow) : Catalog :=
  match k with
  | .bucket => { cat with bucket_services := l }
  | .db => { cat with db_services := l }
  | .nosql => { cat with nosql_services := l }
  | .queue => { cat with queue_services := l }
  | .secrets => { cat with secrets_services := l }

/-- `db.query(Model).filter(Model.service_id == sid).first()`. -/
def findService (k : ServiceKind) (cat : Catalog) (sid : String) : Option ServiceRow :=
  (getServices k cat).find? (fun s => s.service_id == sid)

/-- Identity-mapped mutation of one service row, keyed by primary key. -/
def updateService (k : ServiceKind) (cat : Catalog) (sid : String)
    (f : ServiceRow → ServiceRow) : Catalog :=
  setServices k cat ((getServices k cat).map fun s =>
    if s.service_id == sid then f s else s)

def findContainer (cat : Catalog) (cid : String) : Option ContainerRow :=
  cat.containers.find? (fun c => c.container_id == cid)

def updateContainer (cat : Catalog) (cid : String)
    (f : ContainerRow → ContainerRow) : Catalog :=
  { cat with containers := cat.containers.map fun c =>
      if c.container_id == cid then f c else c }

def findNode (cat : Catalog) (nid : String) : Option NodeRow :=
  cat.nodes.find? (fun n => n.node_id == nid)

/-- `db.query(Node).filter(Node.is_healthy == True).all()`. -/
def healthy_nodes (cat : Catalog) : List NodeRow :=
  cat.nodes.filter (fun n => n.is_healthy)

/-- `db.delete(row)` on a service row (primary keys are unique). -/
def deleteService (k : ServiceKind) (cat : Catalog) (sid : String) : Catalog :=
  setServices k cat ((getServices k cat).filter fun s => s.service_id != sid)

def deleteContainer (cat : Catalog) (cid : String) : Catalog :=
  { cat with containers := cat.containers.filter fun c => c.container_id != cid }

/-! ## HTTP world model

Every outbound HTTP call either raises (network error, modelled `exn`)
or returns a status code and a typed body; the per-call result is an
oracle argument.  `OutboundCall` records the request a handler actually
issued, including its explicit timeout in seconds. -/

inductive HttpOutcome (α : Type) where
  | exn
  | ok (status : Nat) (body : α)
deriving DecidableEq, Repr

structure OutboundCall where
  method : String
  url : String
  timeout : Nat
deriving DecidableEq, Repr

/-- An HTTP response produced by a control-plane handler: for
`HTTPException` paths the status and `detail`; 200 otherwise. -/
structure HResp where
  status : Nat
  detail : String
deriving DecidableEq, Repr

/-! ## Node registry (node_manager.py, health.py) -/

/-- `register_node` (node_manager.py lines 17-60).  `client_ip` is the
direct peer address and `xff` the `x-forwarded-for` header, when
present.  Returns the updated catalog and the URL actually stored. -/
def register_node (cat : Catalog) (node_id url : String)
    (client_ip : String) (xff : Option String) (now : Nat) : Catalog × String :=
  let url1 :=
    if pyContains url "0.0.0.0" then
      let ip :=
        if (client_ip == "127.0.0.1" || client_ip == "::1") then
          match xff with
          | some h => pyStrip ((pySplitOn h ",").headD "")
          | none => client_ip
        else client_ip
      pyReplace url "0.0.0.0" ip
    else url
  match findNode cat node_id with
  | some _ =>
    let cat1 := { cat with nodes := cat.nodes.map fun n =>
      if n.node_id == node_id then
        { n with url := url1, last_seen := now, is_healthy := true }
      else n }
    (cat1, url1)
  | none =>
    let row : NodeRow :=
      { node_id := node_id, url := url1, is_healthy := true,
        last_health_check := now, last_seen := now, registered_at := now }
    ({ cat with nodes := cat.nodes ++ [row] }, url1)

/-- `health_check_node` (health.py lines 16-39): one probe of
`GET {url}/health` under a client constructed with `timeout=30.0`;
a non-200 or an exception marks the node unhealthy. -/
def health_check_node (cat : Catalog) (nid : String)
    (probe : HttpOutcome Unit) (now : Nat) : Bool × Catalog × OutboundCall :=
  let url := match findNode cat nid with
    | some n => pyRstripSlash n.url ++ "/health"
    | none => "/health"
  let call : OutboundCall := { method := "GET", url := url, timeout := 30 }
  let isH := match probe with
    | .ok status _ => status == 200
    | .exn => false
  let cat1 := { cat with nodes := cat.nodes.map fun n =>
    if n.node_id == nid then
      { n with is_healthy := isH, last_health_check := now }
    else n }
  (isH, cat1, call)

/-! ## Terminal proxy (websocket_proxy.py) -/

/-- The node WebSocket URL the proxy dials (websocket_proxy.py lines
32-35): `f"ws://{node.url.replace('http://', '')}/ws/terminal/{cid}"`. -/
def node_ws_url (url container_id : String) : String :=
  "ws://" ++ pyReplace url "http://" "" ++ "/ws/terminal/" ++ container_id

/-- Modelled from the claim text of C9: swap the scheme (`http → ws`,
`https → wss`) and dial `{ws_url}/ws/terminal/{container_id}`. -/
def claimed_ws_url (url container_id : String) : Option String :=
  if "https://".data.isPrefixOf url.data then
    some ("wss://" ++ ⟨url.data.drop 8⟩ ++ "/ws/terminal/" ++ container_id)
  else if "http://".data.isPrefixOf url.data then
    some ("ws://" ++ ⟨url.data.drop 7⟩ ++ "/ws/terminal/" ++ container_id)
  else none

/-! ## Launch state machine (service_launcher.py, container_manager.py) -/

/-- `node_ip = selected_node.url.split("://")[1].split(":")[0]`
(service_launcher.py line 71); a URL without `://` raises IndexError
inside the polling `try`, which the except turns into a failed attempt. -/
def hostOfUrl (url : String) : Option String :=
  match pySplitOn url "://" with
  | _ :: after :: _ => some ((pySplitOn after ":").headD "")
  | _ => none

/-- Body of a node's `GET /containers/{id}/ports` response: the value
of the `"ports"` key when present, plus the remaining top-level keys. -/
structure PortsResp where
  portsKey : Option (List (String × PortsVal))
  rest : List (String × PortsVal)
deriving DecidableEq, Repr

/-- `ports_dict = ports_data.get("ports", {})` plus the top-level
fallback scan (service_launcher.py lines 75-83): when the `ports` value
is missing or empty and some top-level key ends in `/tcp` or `/udp`,
the whole response object becomes the ports dict. -/
def get_ports_dict (r : PortsResp) : List (String × PortsVal) :=
  let pd := r.portsKey.getD []
  if pd.isEmpty then
    let whole :=
      (match r.portsKey with
       | some _ => [("ports", PortsVal.other)]
       | none => []) ++ r.rest
    if whole.any (fun kv => pyEndsWith kv.1 "/tcp" || pyEndsWith kv.1 "/udp") then
      whole
    else []
  else pd

/-- The readiness-poll request (service_launcher.py lines 60-64). -/
def ports_poll_call (node : NodeRow) (container_id : String) : OutboundCall :=
  { method := "GET",
    url := node.url ++ "/containers/" ++ container_id ++ "/ports",
    timeout := 10 }

/-- One attempt of the polling loop: a network error, a non-200, a bad
node URL, or an unusable ports dict all fall through to a retry. -/
def poll_attempt (node : NodeRow) (sp : String) (o : HttpOutcome PortsResp) :
    Option (String × Nat) :=
  match o with
  | .exn => none
  | .ok status resp =>
    if status == 200 then
      match hostOfUrl node.url with
      | none => none
      | some ip =>
        match select_service_port (get_ports_dict resp) sp with
        | some p => some (ip, p)
        | none => none
    else none

def waitAux (node : NodeRow) (cid sp : String) (polls : Nat → HttpOutcome PortsResp) :
    Nat → Nat → Option (String × Nat) × List OutboundCall
  | _, 0 => (none, [])
  | idx, fuel + 1 =>
    let call := ports_poll_call node cid
    match poll_attempt node sp (polls idx) with
    | some r => (some r, [call])
    | none =>
      let tail := waitAux node cid sp polls (idx + 1) fuel
      (tail.1, call :: tail.2)

/-- `wait_for_service_container` (service_launcher.py lines 45-150):
up to `max_retries` (60) polls of the node's ports endpoint; the first
attempt that selects a truthy host port returns `(node_ip, port)`. -/
def wait_for_service_container (node : NodeRow) (cid sp : String)
    (polls : Nat → HttpOutcome PortsResp) (max_retries : Nat) :
    Option (String × Nat) × List OutboundCall :=
  waitAux node cid sp polls 0 max_retries

/-- JSON body of a node's launch response: the `container_id` and `id`
keys, when present. -/
structure LaunchBody where
  container_id : Option String
  id : Option String
deriving DecidableEq, Repr

/-- Python truthiness of `result.get(...)`: absent keys and empty
strings are falsy. -/
def pyTruthyStr : Option String → Bool
  | some s => !s.data.isEmpty
  | none => false

/-- Python `a or b` on optional strings. -/
def pyOrStr (a b : Option String) : Option String :=
  if pyTruthyStr a then a else b

/-- Oracle for one launch request: the launch RPC outcome, the
per-attempt ports responses, and the `uuid4().hex[:8]` suffixes the
handler would draw. -/
structure LaunchWorld where
  launch : HttpOutcome LaunchBody
  polls : Nat → HttpOutcome PortsResp
  gen_container_suffix : String
  gen_service_suffix : String

/-- Result of a launch handler: HTTP response, the published
`(container_id, service_id, ip, port)` on success, the catalog after
the handler, and the outbound calls it made. -/
structure LaunchOutput where
  resp : HResp
  service : Option (String × String × String × Nat)
  cat : Catalog
  calls : List OutboundCall
deriving Repr

/-- The per-kind constants of the five copy-pasted launch handlers in
service_launcher.py.  `useIdKey` is false only for the bucket handler,
whose fallback reads `container_id` twice (line 191) so the node's
`id` key is never consulted. -/
structure LaunchCfg where
  path : String
  image : String
  portKey : String
  kind : ServiceKind
  idPrefix : String
  useIdKey : Bool
  extras : Option DBExtras
  failDetail : String

/-- Common body of `launch_bucket_service`, `launch_db_service`,
`launch_nosql_service`, `launch_queue_service`, `launch_secrets_service`
(service_launcher.py lines 153-765; the five handlers are identical up to
the `LaunchCfg` constants).  Error details keep the handler's message
prefix; the wrapped `str(e)` suffix is dropped.  Note the node-error
`HTTPException(resp.status_code)` at lines 183-186 is raised inside the
`try` and caught by the blanket `except Exception` at line 261, which
re-raises status 500. -/
def launch_managed_service (cfg : LaunchCfg) (cat : Catalog) (w : LaunchWorld)
    (now : Nat) : LaunchOutput :=
  match healthy_nodes cat with
  | [] =>
    { resp := ⟨503, "No healthy nodes available"⟩, service := none,
      cat := cat, calls := [] }
  | node :: _ =>
    let launchCall : OutboundCall := ⟨"POST", node.url ++ cfg.path, 60⟩
    match w.launch with
    | .exn =>
      { resp := ⟨500, cfg.failDetail⟩, service := none, cat := cat,
        calls := [launchCall] }
    | .ok status body =>
      if status != 200 then
        { resp := ⟨500, cfg.failDetail⟩, service := none, cat := cat,
          calls := [launchCall] }
      else
        let fromBody :=
          if cfg.useIdKey then pyOrStr body.container_id body.id
          else pyOrStr body.container_id body.container_id
        let cid :=
          if pyTruthyStr fromBody then fromBody.getD ""
          else "container-" ++ w.gen_container_suffix
        let row : ContainerRow :=
          ⟨cid, "system", node.node_id, cfg.image, cfg.image, "running", now⟩
        let cat1 := { cat with containers := cat.containers ++ [row] }
        let wres := wait_for_service_container node cid cfg.portKey w.polls 60
        match wres.1 with
        | some (ip, port) =>
          let sid := cfg.idPrefix ++ w.gen_service_suffix
          let svc : ServiceRow :=
            ⟨sid, cid, node.node_id, ip, port, "running", true, now, now, cfg.extras⟩
          let cat2 := setServices cfg.kind cat1 (getServices cfg.kind cat1 ++ [svc])
          { resp := ⟨200, ""⟩, service := some (cid, sid, ip, port),
            cat := cat2, calls := launchCall :: wres.2 }
        | none =>
          { resp := ⟨500, cfg.failDetail⟩, service := none, cat := cat1,
            calls := launchCall :: wres.2 }

/-- `DBServiceLaunchRequest` (service_launcher.py lines 268-274). -/
structure DBServiceLaunchRequest where
  instance_name : Option String
  max_cpu_percent : Int
  max_ram_mb : Int
  max_disk_gb : Int
  database_name : String
deriving DecidableEq, Repr

/-- The defaulted request used when the body is absent. -/
def defaultDBLaunchRequest : DBServiceLaunchRequest :=
  ⟨none, 90, 2048, 10, "main"⟩

def bucketCfg : LaunchCfg :=
  ⟨"/launchBucket", "bucket-service", "8000/tcp", .bucket, "bucket-",
   false, none, "Failed to launch bucket service"⟩

def dbCfg (req : DBServiceLaunchRequest) : LaunchCfg :=
  ⟨"/launchDB", "database-service", "8010/tcp", .db, "db-", true,
   some ⟨req.max_cpu_percent, req.max_ram_mb, req.max_disk_gb,
         req.database_name, req.instance_name⟩,
   "Failed to launch database service"⟩

def nosqlCfg : LaunchCfg :=
  ⟨"/launchNoSQL", "nosql-service", "8020/tcp", .nosql, "nosql-",
   true, none, "Failed to launch NoSQL service"⟩

def queueCfg : LaunchCfg :=
  ⟨"/launchQueue", "queue-service", "8030/tcp", .queue, "queue-",
   true, none, "Failed to launch queue service"⟩

def secretsCfg : LaunchCfg :=
  ⟨"/launchSecrets", "secrets-service", "8040/tcp", .secrets, "secrets-",
   true, none, "Failed to launch secrets service"⟩

def launch_bucket_service (cat : Catalog) (w : LaunchWorld) (now : Nat) : LaunchOutput :=
  launch_managed_service bucketCfg cat w now

def launch_db_service (req : DBServiceLaunchRequest) (cat : Catalog)
    (w : LaunchWorld) (now : Nat) : LaunchOutput :=
  launch_managed_service (dbCfg req) cat w now

def launch_nosql_service (cat : Catalog) (w : LaunchWorld) (now : Nat) : LaunchOutput :=
  launch_managed_service nosqlCfg cat w now

def launch_queue_service (cat : Catalog) (w : LaunchWorld) (now : Nat) : LaunchOutput :=
  launch_managed_service queueCfg cat w now

def launch_secrets_service (cat : Catalog) (w : LaunchWorld) (now : Nat) : LaunchOutput :=
  launch_managed_service secretsCfg cat w now

/-- `ContainerConfig` fields the generic launch reads (models.py,
container_manager.py lines 80-91). -/
structure ContainerConfig where
  user_id : String
  image : String
  name : String
deriving DecidableEq, Repr

/-- `launch_container` (container_manager.py lines 23-113): the generic
container launch.  Same guard and same swallowed node-error shape as
the managed launches, but no readiness polling and no service row. -/
def launch_container (cat : Catalog) (req : ContainerConfig) (w : LaunchWorld)
    (now : Nat) : LaunchOutput :=
  match healthy_nodes cat with
  | [] =>
    { resp := ⟨503, "No healthy nodes available"⟩, service := none,
      cat := cat, calls := [] }
  | node :: _ =>
    let launchCall : OutboundCall := ⟨"POST", node.url ++ "/launch", 60⟩
    match w.launch with
    | .exn =>
      { resp := ⟨500, "Failed to launch container"⟩, service := none,
        cat := cat, calls := [launchCall] }
    | .ok status body =>
      if status != 200 then
        { resp := ⟨500, "Failed to launch container"⟩, service := none,
          cat := cat, calls := [launchCall] }
      else
        let fromBody := pyOrStr body.container_id body.id
        let cid :=
          if pyTruthyStr fromBody then fromBody.getD ""
          else "container-" ++ w.gen_container_suffix
        let row : ContainerRow :=
          ⟨cid, req.user_id, node.node_id, req.image, req.name, "running", now⟩
        { resp := ⟨200, ""⟩, service := none,
          cat := { cat with containers := cat.containers ++ [row] },
          calls := [launchCall] }

/-! ## Request router (service_manager.py)

Each data operation takes the catalog, the service id, and the oracle
outcome of the single forwarded call; it returns the HTTP response and
the outbound calls actually made.  Response bodies are opaque; for the
claims only the status, `detail`, and whether the node was contacted
matter. -/

def service_url (svc : ServiceRow) : String :=
  "http://" ++ svc.ip_address ++ ":" ++ toString svc.port

/-- `list_bucket_files` (service_manager.py lines 92-131).  Unlike its
siblings this handler has no missing-row check and no `is_healthy`
check: on a missing row the attribute access on `None` raises, and the
`except Exception` arm answers 500; on an unhealthy row the request is
forwarded anyway. -/
def list_bucket_files (cat : Catalog) (sid : String) (o : HttpOutcome Unit) :
    HResp × List OutboundCall :=
  match findService .bucket cat sid with
  | none => (⟨500, "Failed to list bucket files"⟩, [])
  | some svc =>
    let call : OutboundCall := ⟨"GET", service_url svc ++ "/data/files", 30⟩
    match o with
    | .exn => (⟨500, "Failed to list bucket files"⟩, [call])
    | .ok st _ =>
      if st != 200 then (⟨st, "Failed to list files from bucket service"⟩, [call])
      else (⟨200, ""⟩, [call])

/-- `upload_to_bucket` (service_manager.py lines 134-184). -/
def upload_to_bucket (cat : Catalog) (sid : String) (o : HttpOutcome Unit) :
    HResp × List OutboundCall :=
  match findService .bucket cat sid with
  | none => (⟨404, "Bucket service not found"⟩, [])
  | some svc =>
    if !svc.is_healthy then (⟨503, "Bucket service is not healthy"⟩, [])
    else
      let call : OutboundCall := ⟨"POST", service_url svc ++ "/data/upload", 60⟩
      match o with
      | .exn => (⟨500, "Failed to upload to bucket"⟩, [call])
      | .ok st _ =>
        if st != 200 then (⟨st, "Failed to upload file to bucket service"⟩, [call])
        else (⟨200, ""⟩, [call])

/-- `download_from_bucket` (service_manager.py lines 187-241). -/
def download_from_bucket (cat : Catalog) (sid filename : String)
    (o : HttpOutcome Unit) : HResp × List OutboundCall :=
  match findService .bucket cat sid with
  | none => (⟨404, "Bucket service not found"⟩, [])
  | some svc =>
    if !svc.is_healthy then (⟨503, "Bucket service is not healthy"⟩, [])
    else
      let call : OutboundCall :=
        ⟨"GET", service_url svc ++ "/data/download/" ++ filename, 60⟩
      match o with
      | .exn => (⟨500, "Failed to download from bucket"⟩, [call])
      | .ok st _ =>
        if st != 200 then
          (⟨st, "Failed to download file from bucket service"⟩, [call])
        else (⟨200, ""⟩, [call])

/-- `delete_from_bucket` (service_manager.py lines 244-293). -/
def delete_from_bucket (cat : Catalog) (sid filename : String)
    (o : HttpOutcome Unit) : HResp × List OutboundCall :=
  match findService .bucket cat sid with
  | none => (⟨404, "Bucket service not found"⟩, [])
  | some svc =>
    if !svc.is_healthy then (⟨503, "Bucket service is not healthy"⟩, [])
    else
      let call : OutboundCall :=
        ⟨"DELETE", service_url svc ++ "/data/delete/" ++ filename, 30⟩
      match o with
      | .exn => (⟨500, "Failed to delete from bucket"⟩, [call])
      | .ok st _ =>
        if st != 200 then
          (⟨st, "Failed to delete file from bucket service"⟩, [call])
        else (⟨200, ""⟩, [call])

/-- `execute_db_sql_query` (service_manager.py lines 468-516).  The
forwarded request carries the hard-coded `x-signature` header. -/
def execute_db_sql_query (cat : Catalog) (sid : String) (o : HttpOutcome Unit) :
    HResp × List OutboundCall :=
  match findService .db cat sid with
  | none => (⟨404, "DB service not found"⟩, [])
  | some svc =>
    if !svc.is_healthy then (⟨503, "DB service is not healthy"⟩, [])
    else
      let call : OutboundCall := ⟨"POST", service_url svc ++ "/sql/query", 30⟩
      match o with
      | .exn => (⟨500, "Failed to execute SQL query"⟩, [call])
      | .ok st _ =>
        if st != 200 then (⟨st, "SQL query failed"⟩, [call])
        else (⟨200, ""⟩, [call])

/-- `save_nosql_entity` (service_manager.py lines 975-1023). -/
def save_nosql_entity (cat : Catalog) (sid collection : String)
    (o : HttpOutcome Unit) : HResp × List OutboundCall :=
  match findService .nosql cat sid with
  | none => (⟨404, "NoSQL service not found"⟩, [])
  | some svc =>
    if !svc.is_healthy then (⟨503, "NoSQL service is not healthy"⟩, [])
    else
      let call : OutboundCall :=
        ⟨"POST", service_url svc ++ "/nosql/" ++ collection ++ "/save_json", 10⟩
      match o with
      | .exn => (⟨500, "Failed to save NoSQL entity"⟩, [call])
      | .ok st _ =>
        if st != 200 then (⟨st, "Failed to save entity"⟩, [call])
        else (⟨200, ""⟩, [call])

/-- `get_nosql_entity` (service_manager.py lines 1130-1177). -/
def get_nosql_entity (cat : Catalog) (sid collection entity_id : String)
    (o : HttpOutcome Unit) : HResp × List OutboundCall :=
  match findService .nosql cat sid with
  | none => (⟨404, "NoSQL service not found"⟩, [])
  | some svc =>
    if !svc.is_healthy then (⟨503, "NoSQL service is not healthy"⟩, [])
    else
      let call : OutboundCall :=
        ⟨"GET", service_url svc ++ "/nosql/" ++ collection ++ "/get/" ++ entity_id, 10⟩
      match o with
      | .exn => (⟨500, "Failed to get NoSQL entity"⟩, [call])
      | .ok st _ =>
        if st != 200 then (⟨st, "Failed to get entity"⟩, [call])
        else (⟨200, ""⟩, [call])

/-- `add_queue_message` (service_manager.py lines 1821-1869). -/
def add_queue_message (cat : Catalog) (sid : String) (o : HttpOutcome Unit) :
    HResp × List OutboundCall :=
  match findService .queue cat sid with
  | none => (⟨404, "Queue service not found"⟩, [])
  | some svc =>
    if !svc.is_healthy then (⟨503, "Queue service is not healthy"⟩, [])
    else
      let call : OutboundCall := ⟨"POST", service_url svc ++ "/queue/add", 10⟩
      match o with
      | .exn => (⟨500, "Failed to add queue message"⟩, [call])
      | .ok st _ =>
        if st != 200 then (⟨st, "Failed to add message"⟩, [call])
        else (⟨200, ""⟩, [call])

/-- `read_queue_messages` (service_manager.py lines 1872-1918). -/
def read_queue_messages (cat : Catalog) (sid : String) (lim : Nat)
    (o : HttpOutcome Unit) : HResp × List OutboundCall :=
  match findService .queue cat sid with
  | none => (⟨404, "Queue service not found"⟩, [])
  | some svc =>
    if !svc.is_healthy then (⟨503, "Queue service is not healthy"⟩, [])
    else
      let call : OutboundCall :=
        ⟨"GET", service_url svc ++ "/queue/read?limit=" ++ toString lim, 10⟩
      match o with
      | .exn => (⟨500, "Failed to read queue messages"⟩, [call])
      | .ok st _ =>
        if st != 200 then (⟨st, "Failed to read messages"⟩, [call])
        else (⟨200, ""⟩, [call])

/-- `delete_queue_message` (service_manager.py lines 1921-1968). -/
def delete_queue_message (cat : Catalog) (sid message_id : String)
    (o : HttpOutcome Unit) : HResp × List OutboundCall :=
  match findService .queue cat sid with
  | none => (⟨404, "Queue service not found"⟩, [])
  | some svc =>
    if !svc.is_healthy then (⟨503, "Queue service is not healthy"⟩, [])
    else
      let call : OutboundCall :=
        ⟨"DELETE", service_url svc ++ "/queue/" ++ message_id, 10⟩
      match o with
      | .exn => (⟨500, "Failed to delete queue message"⟩, [call])
      | .ok st _ =>
        if st != 200 then (⟨st, "Failed to delete message"⟩, [call])
        else (⟨200, ""⟩, [call])

/-- `create_secret` (service_manager.py lines 1972-2024). -/
def create_secret (cat : Catalog) (sid : String) (o : HttpOutcome Unit) :
    HResp × List OutboundCall :=
  match findService .secrets cat sid with
  | none => (⟨404, "Secrets service not found"⟩, [])
  | some svc =>
    if !svc.is_healthy then (⟨503, "Secrets service is not healthy"⟩, [])
    else
      let call : OutboundCall := ⟨"POST", service_url svc ++ "/secrets/store", 10⟩
      match o with
      | .exn => (⟨500, "Failed to create secret"⟩, [call])
      | .ok st _ =>
        if st != 200 then (⟨st, "Failed to create secret"⟩, [call])
        else (⟨200, ""⟩, [call])

/-- `get_secret` (service_manager.py lines 2027-2082): a node 404
answers 200 with `{"secret": null}` instead of propagating. -/
def get_secret (cat : Catalog) (sid secret_name : String) (o : HttpOutcome Unit) :
    HResp × List OutboundCall :=
  match findService .secrets cat sid with
  | none => (⟨404, "Secrets service not found"⟩, [])
  | some svc =>
    if !svc.is_healthy then (⟨503, "Secrets service is not healthy"⟩, [])
    else
      let call : OutboundCall :=
        ⟨"GET", service_url svc ++ "/secrets/" ++ secret_name, 10⟩
      match o with
      | .exn => (⟨500, "Failed to get secret"⟩, [call])
      | .ok st _ =>
        if st == 404 then (⟨200, ""⟩, [call])
        else if st != 200 then (⟨st, "Failed to get secret"⟩, [call])
        else (⟨200, ""⟩, [call])

/-- `delete_secret` (service_manager.py lines 2135-2186). -/
def delete_secret (cat : Catalog) (sid secret_name : String)
    (o : HttpOutcome Unit) : HResp × List OutboundCall :=
  match findService .secrets cat sid with
  | none => (⟨404, "Secrets service not found"⟩, [])
  | some svc =>
    if !svc.is_healthy then (⟨503, "Secrets service is not healthy"⟩, [])
    else
      let call : OutboundCall :=
        ⟨"DELETE", service_url svc ++ "/secrets/" ++ secret_name, 10⟩
      match o with
      | .exn => (⟨500, "Failed to delete secret"⟩, [call])
      | .ok st _ =>
        if st != 200 then (⟨st, "Failed to delete secret"⟩, [call])
        else (⟨200, ""⟩, [call])

/-! ## Service health and restart loop (service_health.py) -/

/-- The probe of `check_service_health` (service_health.py lines
16-24): `GET http://{ip}:{port}/health` with a 10 second timeout. -/
def check_service_health_call (svc : ServiceRow) : OutboundCall :=
  ⟨"GET", service_url svc ++ "/health", 10⟩

/-- `check_service_health` outcome: healthy iff status 200; any
exception means unhealthy. -/
def check_service_health (o : HttpOutcome Unit) : Bool :=
  match o with
  | .ok st _ => st == 200
  | .exn => false

/-- The restart request of `restart_failed_service` (service_health.py
lines 63-69). -/
def restart_start_call (node : NodeRow) (cid : String) : OutboundCall :=
  ⟨"POST", node.url ++ "/containers/" ++ cid ++ "/start", 60⟩

/-- `restart_failed_service` (service_health.py lines 27-97).  Returns
(success, catalog, outbound calls).  The status is written only on the
two response branches: a 200 restores `running/healthy` (and the
container to `running`); any other status writes `failed`; a missing
service, missing container, missing or unhealthy node, or an exception
while contacting the node returns `False` with no status change. -/
def restart_failed_service (k : ServiceKind) (sid : String) (cat : Catalog)
    (startRes : HttpOutcome Unit) (now : Nat) :
    Bool × Catalog × List OutboundCall :=
  match findService k cat sid with
  | none => (false, cat, [])
  | some svc =>
    match findContainer cat svc.container_id with
    | none => (false, cat, [])
    | some con =>
      match findNode cat con.node_id with
      | none => (false, cat, [])
      | some node =>
        if !node.is_healthy then (false, cat, [])
        else
          let call := restart_start_call node con.container_id
          match startRes with
          | .exn => (false, cat, [call])
          | .ok st _ =>
            if st == 200 then
              let cat1 := updateService k cat sid fun s =>
                { s with is_healthy := true, status := "running",
                         last_health_check := now }
              let cat2 := updateContainer cat1 con.container_id fun c =>
                { c with status := "running" }
              (true, cat2, [call])
            else
              let cat1 := updateService k cat sid fun s =>
                { s with is_healthy := false, status := "failed" }
              (false, cat1, [call])

/-- The per-service body of `health_check_services` (service_health.py
lines 110-135, repeated verbatim for the five kinds): write the probed
health bit and `last_health_check`; a healthy service gets
`status := "running"`, an unhealthy one gets `status := "unhealthy"`
followed by exactly one `restart_failed_service` attempt.  Returns the
catalog, whether the service counts as healthy for the gauge, and the
outbound calls. -/
def health_check_one (k : ServiceKind) (sid : String) (cat : Catalog)
    (healthRes startRes : HttpOutcome Unit) (now : Nat) :
    Catalog × Bool × List OutboundCall :=
  match findService k cat sid with
  | none => (cat, false, [])
  | some svc =>
    let hcall := check_service_health_call svc
    let isH := check_service_health healthRes
    let cat1 := updateService k cat sid fun s =>
      { s with is_healthy := isH, last_health_check := now }
    if isH then
      (updateService k cat1 sid (fun s => { s with status := "running" }),
       true, [hcall])
    else
      let cat2 := updateService k cat1 sid fun s =>
        { s with status := "unhealthy" }
      let r := restart_failed_service k sid cat2 startRes now
      (r.2.1, r.1, hcall :: r.2.2)

/-! ## Removal handlers (service_manager.py lines 1513-1817) -/

/-- Oracle for the best-effort node-side teardown. -/
structure TeardownWorld where
  stop : HttpOutcome Unit
  del : HttpOutcome Unit

/-- Common body of `remove_bucket_service`, `remove_db_service`,
`remove_nosql_service`, `remove_queue_service`,
`remove_secrets_service` (service_manager.py lines 1513-1817; the five
handlers are identical up to the kind, the `detail` strings, and the
extra `DELETE /containers/{id}` that only the bucket handler issues).
Node-side teardown runs only when the node row exists and is healthy,
inside its own `try` whose failure is logged and ignored; the service
row, and the container row when present, are then deleted
unconditionally. -/
def remove_service_handler (k : ServiceKind) (alsoDeleteContainer : Bool)
    (notFoundDetail : String) (cat : Catalog) (sid : String)
    (w : TeardownWorld) : HResp × Catalog × List OutboundCall :=
  match findService k cat sid with
  | none => (⟨404, notFoundDetail⟩, cat, [])
  | some svc =>
    let conOpt := findContainer cat svc.container_id
    let nodeOpt := match conOpt with
      | some con => findNode cat con.node_id
      | none => none
    let calls :=
      match nodeOpt, conOpt with
      | some node, some con =>
        if node.is_healthy then
          let stopCall : OutboundCall :=
            ⟨"POST", node.url ++ "/containers/" ++ con.container_id ++ "/stop", 30⟩
          let delCall : OutboundCall :=
            ⟨"DELETE", node.url ++ "/containers/" ++ con.container_id, 30⟩
          match w.stop with
          | .exn => [stopCall]
          | .ok _ _ =>
            if alsoDeleteContainer then [stopCall, delCall] else [stopCall]
        else []
      | _, _ => []
    let cat1 := match conOpt with
      | some con => deleteContainer cat con.container_id
      | none => cat
    let cat2 := deleteService k cat1 sid
    (⟨200, ""⟩, cat2, calls)

def remove_bucket_service (cat : Catalog) (sid : String) (w : TeardownWorld) :
    HResp × Catalog × List OutboundCall :=
  remove_service_handler .bucket true "Bucket service not found" cat sid w

def remove_db_service (cat : Catalog) (sid : String) (w : TeardownWorld) :
    HResp × Catalog × List OutboundCall :=
  remove_service_handler .db false "Database service not found" cat sid w

/-- The module defines `remove_nosql_service` twice; the later
definition (service_manager.py line 1648) shadows the earlier one
(line 850) and is the function the route table binds. -/
def remove_nosql_service (cat : Catalog) (sid : String) (w : TeardownWorld) :
    HResp × Catalog × List OutboundCall :=
  remove_service_handler .nosql false "NoSQL service not found" cat sid w

def remove_queue_service (cat : Catalog) (sid : String) (w : TeardownWorld) :
    HResp × Catalog × List OutboundCall :=
  remove_service_handler .queue false "Queue service not found" cat sid w

def remove_secrets_service (cat : Catalog) (sid : String) (w : TeardownWorld) :
    HResp × Catalog × List OutboundCall :=
  remove_service_handler .secrets false "Secrets service not found" cat sid w

/-! ## Container lifecycle handlers (container_manager.py) -/

/-- `get_container_status` (container_manager.py lines 144-192). -/
def get_container_status (cat : Catalog) (cid : String) (o : HttpOutcome Unit) :
    HResp × List OutboundCall :=
  match findContainer cat cid with
  | none => (⟨404, "Container not found"⟩, [])
  | some con =>
    match findNode cat con.node_id with
    | none => (⟨503, "Container node is not available"⟩, [])
    | some node =>
      if !node.is_healthy then (⟨503, "Container node is not available"⟩, [])
      else
        let call : OutboundCall :=
          ⟨"GET", node.url ++ "/containers/" ++ cid ++ "/status", 30⟩
        match o with
        | .exn => (⟨500, "Failed to get container status"⟩, [call])
        | .ok st _ =>
          if st != 200 then (⟨500, "Failed to get container status"⟩, [call])
          else (⟨200, ""⟩, [call])

/-- `start_container` (container_manager.py lines 249-301).  The
node-error `HTTPException` is raised inside the `try` and caught by the
blanket `except Exception`, so a node non-200 surfaces as 500. -/
def start_container (cat : Catalog) (cid : String) (o : HttpOutcome Unit) :
    HResp × Catalog × List OutboundCall :=
  match findContainer cat cid with
  | none => (⟨404, "Container not found"⟩, cat, [])
  | some con =>
    match findNode cat con.node_id with
    | none => (⟨503, "Container node is not available"⟩, cat, [])
    | some node =>
      if !node.is_healthy then
        (⟨503, "Container node is not available"⟩, cat, [])
      else
        let call : OutboundCall :=
          ⟨"POST", node.url ++ "/containers/" ++ cid ++ "/start", 60⟩
        match o with
        | .exn => (⟨500, "Failed to start container"⟩, cat, [call])
        | .ok st _ =>
          if st != 200 then (⟨500, "Failed to start container"⟩, cat, [call])
          else
            (⟨200, ""⟩,
             updateContainer cat cid (fun c => { c with status := "running" }),
             [call])

/-- `stop_container` (container_manager.py lines 304-356). -/
def stop_container (cat : Catalog) (cid : String) (o : HttpOutcome Unit) :
    HResp × Catalog × List OutboundCall :=
  match findContainer cat cid with
  | none => (⟨404, "Container not found"⟩, cat, [])
  | some con =>
    match findNode cat con.node_id with
    | none => (⟨503, "Container node is not available"⟩, cat, [])
    | some node =>
      if !node.is_healthy then
        (⟨503, "Container node is not available"⟩, cat, [])
      else
        let call : OutboundCall :=
          ⟨"POST", node.url ++ "/containers/" ++ cid ++ "/stop", 60⟩
        match o with
        | .exn => (⟨500, "Failed to stop container"⟩, cat, [call])
        | .ok st _ =>
          if st != 200 then (⟨500, "Failed to stop container"⟩, cat, [call])
          else
            (⟨200, ""⟩,
             updateContainer cat cid (fun c => { c with status := "stopped" }),
             [call])

/-- `restart_container` (container_manager.py lines 472-556): try the
node's restart endpoint; on its 404, fall back to stop (failure
tolerated) then start; every success path writes `status := "running"`
and every raised error is swallowed into a 500. -/
def restart_container (cat : Catalog) (cid : String)
    (restartRes stopRes startRes : HttpOutcome Unit) :
    HResp × Catalog × List OutboundCall :=
  match findContainer cat cid with
  | none => (⟨404, "Container not found"⟩, cat, [])
  | some con =>
    match findNode cat con.node_id with
    | none => (⟨503, "Container node is not available"⟩, cat, [])
    | some node =>
      if !node.is_healthy then
        (⟨503, "Container node is not available"⟩, cat, [])
      else
        let base := node.url ++ "/containers/" ++ cid
        let rCall : OutboundCall := ⟨"POST", base ++ "/restart", 60⟩
        let stCall : OutboundCall := ⟨"POST", base ++ "/stop", 60⟩
        let saCall : OutboundCall := ⟨"POST", base ++ "/start", 60⟩
        match restartRes with
        | .exn => (⟨500, "Failed to restart container"⟩, cat, [rCall])
        | .ok st _ =>
          if st == 404 then
            match stopRes with
            | .exn => (⟨500, "Failed to restart container"⟩, cat, [rCall, stCall])
            | .ok _ _ =>
              match startRes with
              | .exn =>
                (⟨500, "Failed to restart container"⟩, cat, [rCall, stCall, saCall])
              | .ok st2 _ =>
                if st2 != 200 then
                  (⟨500, "Failed to restart container"⟩, cat,
                   [rCall, stCall, saCall])
                else
                  (⟨200, ""⟩,
                   updateContainer cat cid
                     (fun c => { c with status := "running" }),
                   [rCall, stCall, saCall])
          else if st != 200 then
            (⟨500, "Failed to restart container"⟩, cat, [rCall])
          else
            (⟨200, ""⟩,
             updateContainer cat cid (fun c => { c with status := "running" }),
             [rCall])

/-- `delete_container` (container_manager.py lines 559-637): node-side
stop and delete are best-effort when the node is healthy; the row is
then removed unconditionally. -/
def delete_container (cat : Catalog) (cid : String) (w : TeardownWorld) :
    HResp × Catalog × List OutboundCall :=
  match findContainer cat cid with
  | none => (⟨404, "Container not found"⟩, cat, [])
  | some con =>
    let nodeOpt := findNode cat con.node_id
    let calls :=
      match nodeOpt with
      | some node =>
        if node.is_healthy then
          let base := node.url ++ "/containers/" ++ cid
          let stCall : OutboundCall := ⟨"POST", base ++ "/stop", 60⟩
          let dCall : OutboundCall := ⟨"DELETE", base, 60⟩
          match w.stop with
          | .exn => [stCall]
          | .ok _ _ => [stCall, dCall]
        else []
      | none => []
    (⟨200, ""⟩, deleteContainer cat cid, calls)

/-! ## Concrete fixtures used by the claim theorems -/

def nodeN1 : NodeRow := ⟨"n1", "http://10.0.0.5:9000", true, 0, 0, 0⟩

def nodeN1Down : NodeRow := ⟨"n1", "http://10.0.0.5:9000", false, 0, 0, 0⟩

def conC1 : ContainerRow :=
  ⟨"c1", "system", "n1", "bucket-service", "bucket-service", "running", 0⟩

def mkService (sid : String) (healthy : Bool) : ServiceRow :=
  ⟨sid, "c1", "n1", "10.0.0.5", 32801, "running", healthy, 0, 0, none⟩

/-- A catalog whose five service tables hold one unhealthy row each. -/
def catUnhealthyAll : Catalog :=
  { Catalog.empty with
    nodes := [nodeN1]
    containers := [conC1]
    bucket_services := [mkService "bucket-1" false]
    db_services := [mkService "db-1" false]
    nosql_services := [mkService "nosql-1" false]
    queue_services := [mkService "queue-1" false]
    secrets_services := [mkService "secrets-1" false] }

def catOneNode : Catalog := { Catalog.empty with nodes := [nodeN1] }

/-- A launch world whose node answers the launch RPC with HTTP 404. -/
def world404 : LaunchWorld :=
  ⟨.ok 404 ⟨none, none⟩, fun _ => .exn, "deadbeef", "deadbeef"⟩

/-- Ports map on which the implemented selection and the claimed
strategy layering disagree: the exact key `8010/tcp` is present but its
binding list is empty. -/
def c2Ports : List (String × PortsVal) :=
  [("7777/tcp", .plist [.hostPort 111]),
   ("8010/udp", .plist [.hostPort 222]),
   ("8010/tcp", .plist [])]

/-- Catalog with a healthy-status bucket service whose backing node is
unhealthy, so the restart attempt aborts before contacting the node. -/
def catRestartNodeDown : Catalog :=
  { Catalog.empty with
    nodes := [nodeN1Down]
    containers := [conC1]
    bucket_services := [mkService "bucket-1" true] }

def c6Node : NodeRow := ⟨"n1", "http://10.0.0.5:9000", false, 3, 4, 5⟩

def c6Cat : Catalog := { Catalog.empty with nodes := [c6Node] }

def catNoHealthy : Catalog := { Catalog.empty with nodes := [nodeN1Down] }

/-- Kind-indexed dispatch to the five removal handlers. -/
def remove_handler_for : ServiceKind →
    Catalog → String → TeardownWorld → HResp × Catalog × List OutboundCall
  | .bucket => remove_bucket_service
  | .db => remove_db_service
  | .nosql => remove_nosql_service
  | .queue => remove_queue_service
  | .secrets => remove_secrets_service

/-- All host ports appearing in a ports dict are non-zero, so Python
truthiness of an extracted port coincides with non-nullness. -/
def portsValPos : PortsVal → Bool
  | .plist items => items.all fun it =>
      match it with
      | .hostPort n => n != 0
      | .noHostPort => true
  | .pint n => n != 0
  | .other => true

def portsPos (pd : List (String × PortsVal)) : Bool :=
  pd.all fun kv => portsValPos kv.2

/-- Strategy 3 under the claim text's non-null reading: the first entry
whose extraction is non-null. -/
def strategyThreeOpt (pd : List (String × PortsVal)) : Option Nat :=
  match pd.find? (fun kv => (extract_host_port kv.2).isSome) with
  | some kv => extract_host_port kv.2
  | none => none

/-- Modelled from the amended C2 claim: strategy 1 when the exact key
is present, falling directly to strategy 3 when its binding yields no
host port; strategy 2 only when the exact key is absent; then
strategy 3 as the last resort. -/
def amended_select_port (pd : List (String × PortsVal)) (sp : String) : Option Nat :=
  match lookupKey pd sp with
  | some v =>
    match extract_host_port v with
    | some n => some n
    | none => strategyThreeOpt pd
  | none =>
    match strategyTwo pd (stripProto sp) with
    | some n => some n
    | none => strategyThreeOpt pd

/-- Launch world for the readiness-fallback scenario: the node acks the
DB launch with container id `c-abc`, and its ports response holds only
`5432/tcp -> HostPort 32999`. -/
def worldDb5432 : LaunchWorld :=
  ⟨.ok 200 ⟨some "c-abc", none⟩,
   fun _ => .ok 200 ⟨none, [("5432/tcp", .plist [.hostPort 32999])]⟩,
   "deadbeef", "deadbeef"⟩

/-- Catalog with a healthy node, a container, and one bucket service,
used to exercise the sweep/restart step. -/
def catSweep : Catalog :=
  { Catalog.empty with
    nodes := [nodeN1]
    containers := [conC1]
    bucket_services := [mkService "bucket-1" true] }

/-- No container row carries the lifecycle value `"launching"` in its
status column. -/
def noLaunching (cat : Catalog) : Prop :=
  ∀ c ∈ cat.containers, c.status ≠ "launching"

/-! ## Helper lemmas about catalog lookups and updates -/

theorem find?_map_upd {α : Type} (p : α → Bool) (f : α → α)
    (hp : ∀ a, p (f a) = p a) :
    ∀ l : List α,
      (l.map fun a => if p a then f a else a).find? p = (l.find? p).map f
  | [] => rfl
  | a :: l => by
    by_cases h : p a = true
    · simp only [List.map_cons, h, if_true]
      rw [List.find?_cons_of_pos _ ((hp a).trans h),
          List.find?_cons_of_pos _ h, Option.map_some']
    · have h' : p a = false := by simpa using h
      simp only [List.map_cons, h', Bool.false_eq_true, if_false]
      rw [List.find?_cons_of_neg _ (by simp [h']),
          List.find?_cons_of_neg _ (by simp [h'])]
      exact find?_map_upd p f hp l

theorem find?_filter_not {α : Type} (p : α → Bool) (l : List α) :
    (l.filter fun a => !p a).find? p = none := by
  rw [List.find?_eq_none]
  intro x hx
  have := (List.mem_filter.mp hx).2
  simp at this
  simp [this]

theorem getServices_setServices (k : ServiceKind) (cat : Catalog)
    (l : List ServiceRow) : getServices k (setServices k cat l) = l := by
  cases k <;> rfl

theorem containers_setServices (k : ServiceKind) (cat : Catalog)
    (l : List ServiceRow) : (setServices k cat l).containers = cat.containers := by
  cases k <;> rfl

theorem nodes_setServices (k : ServiceKind) (cat : Catalog)
    (l : List ServiceRow) : (setServices k cat l).nodes = cat.nodes := by
  cases k <;> rfl

theorem containers_updateService (k : ServiceKind) (cat : Catalog) (sid : String)
    (f : ServiceRow → ServiceRow) :
    (updateService k cat sid f).containers = cat.containers :=
  containers_setServices k cat _

theorem nodes_updateService (k : ServiceKind) (cat : Catalog) (sid : String)
    (f : ServiceRow → ServiceRow) :
    (updateService k cat sid f).nodes = cat.nodes :=
  nodes_setServices k cat _

theorem findContainer_updateService (k : ServiceKind) (cat : Catalog)
    (sid : String) (f : ServiceRow → ServiceRow) (cid : String) :
    findContainer (updateService k cat sid f) cid = findContainer cat cid := by
  unfold findContainer
  rw [containers_updateService]

theorem findNode_updateService (k : ServiceKind) (cat : Catalog)
    (sid : String) (f : ServiceRow → ServiceRow) (nid : String) :
    findNode (updateService k cat sid f) nid = findNode cat nid := by
  unfold findNode
  rw [nodes_updateService]

theorem findService_updateService (k : ServiceKind) (cat : Catalog) (sid : String)
    (f : ServiceRow → ServiceRow) (hf : ∀ s, (f s).service_id = s.service_id) :
    findService k (updateService k cat sid f) sid = (findService k cat sid).map f := by
  unfold findService updateService
  rw [getServices_setServices]
  exact find?_map_upd _ f (fun s => by rw [hf]) _

theorem getServices_updateContainer (k : ServiceKind) (cat : Catalog)
    (cid : String) (f : ContainerRow → ContainerRow) :
    getServices k (updateContainer cat cid f) = getServices k cat := by
  cases k <;> rfl

theorem findService_updateContainer (k : ServiceKind) (cat : Catalog)
    (cid : String) (f : ContainerRow → ContainerRow) (sid : String) :
    findService k (updateContainer cat cid f) sid = findService k cat sid := by
  unfold findService
  rw [getServices_updateContainer]

theorem findContainer_updateContainer (cat : Catalog) (cid : String)
    (f : ContainerRow → ContainerRow)
    (hf : ∀ c, (f c).container_id = c.container_id) :
    findContainer (updateContainer cat cid f) cid = (findContainer cat cid).map f := by
  unfold findContainer updateContainer
  exact find?_map_upd _ f (fun c => by rw [hf]) _

theorem findService_deleteService (k : ServiceKind) (cat : Catalog) (sid : String) :
    findService k (deleteService k cat sid) sid = none := by
  unfold findService deleteService
  rw [getServices_setServices]
  exact find?_filter_not (fun s : ServiceRow => s.service_id == sid)
    (getServices k cat)

theorem findContainer_deleteContainer (cat : Catalog) (cid : String) :
    findContainer (deleteContainer cat cid) cid = none := by
  unfold findContainer deleteContainer
  exact find?_filter_not (fun c : ContainerRow => c.container_id == cid)
    cat.containers

theorem containers_deleteService (k : ServiceKind) (cat : Catalog) (sid : String) :
    (deleteService k cat sid).containers = cat.containers :=
  containers_setServices k cat _

theorem findContainer_deleteService (k : ServiceKind) (cat : Catalog)
    (sid : String) (cid : String) :
    findContainer (deleteService k cat sid) cid = findContainer cat cid := by
  unfold findContainer
  rw [containers_deleteService]

/-! ## C1 -/

/-- C1: the claim says every router data operation answers 404 on a
missing service row and 503 without contacting the node on an unhealthy
row.  `list_bucket_files` has neither guard: a missing row becomes a
500 (attribute error on `None` swallowed by `except Exception`), and an
unhealthy row is forwarded to the node anyway.  Every sibling operation
listed by the claim honours both guards at the same inputs. -/
theorem C1_router_guard_bug :
    (list_bucket_files Catalog.empty "bucket-1" (.ok 200 ())).1.status = 500 ∧
    (list_bucket_files catUnhealthyAll "bucket-1" (.ok 200 ())).1.status = 200 ∧
    (list_bucket_files catUnhealthyAll "bucket-1" (.ok 200 ())).2 ≠ [] ∧
    upload_to_bucket Catalog.empty "bucket-1" (.ok 200 ()) =
      (⟨404, "Bucket service not found"⟩, []) ∧
    upload_to_bucket catUnhealthyAll "bucket-1" (.ok 200 ()) =
      (⟨503, "Bucket service is not healthy"⟩, []) ∧
    download_from_bucket Catalog.empty "bucket-1" "f.txt" (.ok 200 ()) =
      (⟨404, "Bucket service not found"⟩, []) ∧
    download_from_bucket catUnhealthyAll "bucket-1" "f.txt" (.ok 200 ()) =
      (⟨503, "Bucket service is not healthy"⟩, []) ∧
    delete_from_bucket Catalog.empty "bucket-1" "f.txt" (.ok 200 ()) =
      (⟨404, "Bucket service not found"⟩, []) ∧
    delete_from_bucket catUnhealthyAll "bucket-1" "f.txt" (.ok 200 ()) =
      (⟨503, "Bucket service is not healthy"⟩, []) ∧
    execute_db_sql_query Catalog.empty "db-1" (.ok 200 ()) =
      (⟨404, "DB service not found"⟩, []) ∧
    execute_db_sql_query catUnhealthyAll "db-1" (.ok 200 ()) =
      (⟨503, "DB service is not healthy"⟩, []) ∧
    save_nosql_entity Catalog.empty "nosql-1" "col" (.ok 200 ()) =
      (⟨404, "NoSQL service not found"⟩, []) ∧
    save_nosql_entity catUnhealthyAll "nosql-1" "col" (.ok 200 ()) =
      (⟨503, "NoSQL service is not healthy"⟩, []) ∧
    get_nosql_entity Catalog.empty "nosql-1" "col" "e1" (.ok 200 ()) =
      (⟨404, "NoSQL service not found"⟩, []) ∧
    get_nosql_entity catUnhealthyAll "nosql-1" "col" "e1" (.ok 200 ()) =
      (⟨503, "NoSQL service is not healthy"⟩, []) ∧
    add_queue_message Catalog.empty "queue-1" (.ok 200 ()) =
      (⟨404, "Queue service not found"⟩, []) ∧
    add_queue_message catUnhealthyAll "queue-1" (.ok 200 ()) =
      (⟨503, "Queue service is not healthy"⟩, []) ∧
    read_queue_messages Catalog.empty "queue-1" 10 (.ok 200 ()) =
      (⟨404, "Queue service not found"⟩, []) ∧
    read_queue_messages catUnhealthyAll "queue-1" 10 (.ok 200 ()) =
      (⟨503, "Queue service is not healthy"⟩, []) ∧
    delete_queue_message Catalog.empty "queue-1" "m1" (.ok 200 ()) =
      (⟨404, "Queue service not found"⟩, []) ∧
    delete_queue_message catUnhealthyAll "queue-1" "m1" (.ok 200 ()) =
      (⟨503, "Queue service is not healthy"⟩, []) ∧
    create_secret Catalog.empty "secrets-1" (.ok 200 ()) =
      (⟨404, "Secrets service not found"⟩, []) ∧
    create_secret catUnhealthyAll "secrets-1" (.ok 200 ()) =
      (⟨503, "Secrets service is not healthy"⟩, []) ∧
    get_secret Catalog.empty "secrets-1" "k" (.ok 200 ()) =
      (⟨404, "Secrets service not found"⟩, []) ∧
    get_secret catUnhealthyAll "secrets-1" "k" (.ok 200 ()) =
      (⟨503, "Secrets service is not healthy"⟩, []) ∧
    delete_secret Catalog.empty "secrets-1" "k" (.ok 200 ()) =
      (⟨404, "Secrets service not found"⟩, []) ∧
    delete_secret catUnhealthyAll "secrets-1" "k" (.ok 200 ()) =
      (⟨503, "Secrets service is not healthy"⟩, []) := by
  decide

/-! ## C3 -/

/-- C3: the claim says a node 4xx on the launch RPC passes through to
the client.  In every managed launch handler the
`HTTPException(resp.status_code)` is raised inside the `try` whose
blanket `except Exception` re-raises 500, so a node 404 surfaces as
500, not 404. -/
theorem C3_node_error_wrapped_to_500 :
    (launch_bucket_service catOneNode world404 0).resp.status = 500 ∧
    (launch_db_service defaultDBLaunchRequest catOneNode world404 0).resp.status = 500 ∧
    (launch_nosql_service catOneNode world404 0).resp.status = 500 ∧
    (launch_queue_service catOneNode world404 0).resp.status = 500 ∧
    (launch_secrets_service catOneNode world404 0).resp.status = 500 ∧
    (launch_bucket_service catOneNode world404 0).resp.status ≠ 404 := by
  decide

/-! ## C2 -/

/-- C2 counterexample: with the exact key present but yielding a null
host port, the code skips strategy 2 entirely (it is the `elif` of the
exact-key test) and strategy 3 answers 111, while the claimed layering
has strategy 2 yield 222 from `8010/udp`. -/
theorem C2_counterexample :
    select_service_port c2Ports "8010/tcp" = some 111 ∧
    claimed_select_port c2Ports "8010/tcp" = some 222 ∧
    select_service_port c2Ports "8010/tcp" ≠
      claimed_select_port c2Ports "8010/tcp" := by
  decide

/-! ## C4 -/

/-- C4 counterexample: the claim says any failure during the restart
attempt sets the service to `failed`.  When the backing node is
unhealthy the restart aborts with no status write, leaving the service
at `unhealthy` (and no start RPC is issued). -/
theorem C4_counterexample :
    ((findService .bucket
        (health_check_one .bucket "bucket-1" catRestartNodeDown
          (.ok 500 ()) (.ok 200 ()) 5).1 "bucket-1").map fun s => s.status) =
      some "unhealthy" ∧
    (health_check_one .bucket "bucket-1" catRestartNodeDown
        (.ok 500 ()) (.ok 200 ()) 5).2.2 =
      [check_service_health_call (mkService "bucket-1" true)] ∧
    some "unhealthy" ≠ some "failed" := by
  decide

/-! ## C6 -/

/-- C6 counterexample: re-registering an unhealthy node with its
identical `(node_id, url)` also flips `is_healthy` back to `true`, so
the update does not change only `last_seen`. -/
theorem C6_counterexample :
    (register_node c6Cat "n1" "http://10.0.0.5:9000" "9.9.9.9" none 7).1.nodes =
      [{ c6Node with last_seen := 7, is_healthy := true }] ∧
    (register_node c6Cat "n1" "http://10.0.0.5:9000" "9.9.9.9" none 7).1.nodes ≠
      [{ c6Node with last_seen := 7 }] := by
  decide

/-! ## C8 -/

/-- C8 counterexample: the node liveness probe issues `GET /health`
with a 30-second client timeout (health.py line 21), not the claimed
10 seconds. -/
theorem C8_counterexample :
    (health_check_node catOneNode "n1" (.ok 200 ()) 0).2.2 =
      { method := "GET", url := "http://10.0.0.5:9000/health", timeout := 30 } ∧
    (health_check_node catOneNode "n1" (.ok 200 ()) 0).2.2.timeout ≠ 10 := by
  decide

/-! ## C9 -/

/-- C9 counterexample: the proxy builds the node WebSocket URL by
stripping `http://` and prefixing `ws://`; an `https` node URL is not
rewritten to `wss://` but becomes the malformed `ws://https://...`. -/
theorem C9_counterexample :
    node_ws_url "https://10.0.0.5:9000" "c1" =
      "ws://https://10.0.0.5:9000/ws/terminal/c1" ∧
    claimed_ws_url "https://10.0.0.5:9000" "c1" =
      some "wss://10.0.0.5:9000/ws/terminal/c1" ∧
    node_ws_url "https://10.0.0.5:9000" "c1" ≠
      "wss://10.0.0.5:9000/ws/terminal/c1" := by
  decide

/-! ## C5 -/

/-- C5: with no healthy node, every launch handler answers 503 with
detail `"No healthy nodes available"` and leaves the catalog unchanged
(no container row, no service row), before any node is contacted. -/
theorem C5_no_healthy_nodes_503 (cat : Catalog) (w : LaunchWorld)
    (req : DBServiceLaunchRequest) (creq : ContainerConfig) (now : Nat)
    (h : healthy_nodes cat = []) :
    launch_bucket_service cat w now =
      ⟨⟨503, "No healthy nodes available"⟩, none, cat, []⟩ ∧
    launch_db_service req cat w now =
      ⟨⟨503, "No healthy nodes available"⟩, none, cat, []⟩ ∧
    launch_nosql_service cat w now =
      ⟨⟨503, "No healthy nodes available"⟩, none, cat, []⟩ ∧
    launch_queue_service cat w now =
      ⟨⟨503, "No healthy nodes available"⟩, none, cat, []⟩ ∧
    launch_secrets_service cat w now =
      ⟨⟨503, "No healthy nodes available"⟩, none, cat, []⟩ ∧
    launch_container cat creq w now =
      ⟨⟨503, "No healthy nodes available"⟩, none, cat, []⟩ := by
  refine ⟨?_, ?_, ?_, ?_, ?_, ?_⟩ <;>
    simp [launch_bucket_service, launch_db_service, launch_nosql_service,
      launch_queue_service, launch_secrets_service, launch_managed_service,
      launch_container, h]

theorem C5_no_healthy_nodes_503_witness :
    healthy_nodes catNoHealthy = [] ∧
    (launch_bucket_service catNoHealthy world404 0 =
       ⟨⟨503, "No healthy nodes available"⟩, none, catNoHealthy, []⟩ ∧
     launch_db_service defaultDBLaunchRequest catNoHealthy world404 0 =
       ⟨⟨503, "No healthy nodes available"⟩, none, catNoHealthy, []⟩ ∧
     launch_nosql_service catNoHealthy world404 0 =
       ⟨⟨503, "No healthy nodes available"⟩, none, catNoHealthy, []⟩ ∧
     launch_queue_service catNoHealthy world404 0 =
       ⟨⟨503, "No healthy nodes available"⟩, none, catNoHealthy, []⟩ ∧
     launch_secrets_service catNoHealthy world404 0 =
       ⟨⟨503, "No healthy nodes available"⟩, none, catNoHealthy, []⟩ ∧
     launch_container catNoHealthy ⟨"u1", "img", "name"⟩ world404 0 =
       ⟨⟨503, "No healthy nodes available"⟩, none, catNoHealthy, []⟩) :=
  ⟨by decide,
   C5_no_healthy_nodes_503 catNoHealthy world404 defaultDBLaunchRequest
     ⟨"u1", "img", "name"⟩ 0 (by decide)⟩

/-! ## C7 -/

theorem remove_handler_removes_rows (k : ServiceKind) (flag : Bool)
    (nf : String) (cat : Catalog) (sid : String) (w : TeardownWorld)
    (svc : ServiceRow) (hs : findService k cat sid = some svc) :
    (remove_service_handler k flag nf cat sid w).1 = ⟨200, ""⟩ ∧
    findService k (remove_service_handler k flag nf cat sid w).2.1 sid = none ∧
    findContainer (remove_service_handler k flag nf cat sid w).2.1
      svc.container_id = none := by
  unfold remove_service_handler
  rw [hs]
  refine ⟨rfl, findService_deleteService _ _ _, ?_⟩
  rw [findContainer_deleteService]
  cases hc : findContainer cat svc.container_id with
  | none => simp [hc]
  | some con =>
    have hid : con.container_id = svc.container_id := by
      have := List.find?_some hc
      simpa using this
    simp only [hc]
    rw [← hid]
    exact findContainer_deleteContainer cat con.container_id

/-- C7: for every kind, the removal handler on an existing service
answers 200 and removes both the service row and its container row from
the catalog, for every teardown-world outcome and node state (in
particular when the node is unreachable or unhealthy, since the
node-side teardown is guarded and its failure is caught). -/
theorem C7_remove_always_deletes_rows (k : ServiceKind) (cat : Catalog)
    (sid : String) (w : TeardownWorld) (svc : ServiceRow)
    (hs : findService k cat sid = some svc) :
    (remove_handler_for k cat sid w).1 = ⟨200, ""⟩ ∧
    findService k (remove_handler_for k cat sid w).2.1 sid = none ∧
    findContainer (remove_handler_for k cat sid w).2.1 svc.container_id = none := by
  cases k
  · exact remove_handler_removes_rows .bucket true "Bucket service not found"
      cat sid w svc hs
  · exact remove_handler_removes_rows .db false "Database service not found"
      cat sid w svc hs
  · exact remove_handler_removes_rows .nosql false "NoSQL service not found"
      cat sid w svc hs
  · exact remove_handler_removes_rows .queue false "Queue service not found"
      cat sid w svc hs
  · exact remove_handler_removes_rows .secrets false "Secrets service not found"
      cat sid w svc hs

theorem C7_remove_always_deletes_rows_witness :
    findService .bucket catRestartNodeDown "bucket-1" =
      some (mkService "bucket-1" true) ∧
    ((remove_handler_for .bucket catRestartNodeDown "bucket-1" ⟨.exn, .exn⟩).1 =
       ⟨200, ""⟩ ∧
     findService .bucket
       (remove_handler_for .bucket catRestartNodeDown "bucket-1" ⟨.exn, .exn⟩).2.1
       "bucket-1" = none ∧
     findContainer
       (remove_handler_for .bucket catRestartNodeDown "bucket-1" ⟨.exn, .exn⟩).2.1
       (mkService "bucket-1" true).container_id = none) :=
  ⟨by decide,
   C7_remove_always_deletes_rows .bucket catRestartNodeDown "bucket-1"
     ⟨.exn, .exn⟩ (mkService "bucket-1" true) (by decide)⟩

/-- C6 amended: re-registration of a known `node_id` overwrites `url`,
refreshes `last_seen`, forces `is_healthy := true`, and creates no new
row; with an identical `(node_id, url)` pair the row count is
unchanged and the row changes only in `last_seen` and in the forced
healthy bit — so exactly `last_seen` when the node was already
healthy. -/
theorem C6_amended (cat : Catalog) (nid url ip : String) (xff : Option String)
    (now : Nat) (old : NodeRow)
    (hfound : findNode cat nid = some old)
    (hurl : pyContains url "0.0.0.0" = false) :
    (register_node cat nid url ip xff now).1.nodes.length = cat.nodes.length ∧
    findNode (register_node cat nid url ip xff now).1 nid =
      some { old with url := url, last_seen := now, is_healthy := true } ∧
    (url = old.url → old.is_healthy = true →
      findNode (register_node cat nid url ip xff now).1 nid =
        some { old with last_seen := now }) := by
  have hmain : (register_node cat nid url ip xff now).1 =
      { cat with nodes := cat.nodes.map fun n =>
          if n.node_id == nid then
            { n with url := url, last_seen := now, is_healthy := true }
          else n } := by
    unfold register_node
    simp only [hurl, Bool.false_eq_true, if_false, hfound]
  have hfind : findNode (register_node cat nid url ip xff now).1 nid =
      some { old with url := url, last_seen := now, is_healthy := true } := by
    rw [hmain]
    unfold findNode at hfound ⊢
    have := find?_map_upd (fun n : NodeRow => n.node_id == nid)
      (fun n => { n with url := url, last_seen := now, is_healthy := true })
      (fun _ => rfl) cat.nodes
    simp only [this, hfound, Option.map_some']
  refine ⟨?_, hfind, ?_⟩
  · rw [hmain]
    exact List.length_map _ _
  · intro h1 h2
    rw [hfind]
    cases old with
    | mk a b c d e g =>
      simp only at h1 h2
      subst h1
      subst h2
      rfl

theorem C6_amended_witness :
    findNode catOneNode "n1" = some nodeN1 ∧
    pyContains "http://10.0.0.5:9000" "0.0.0.0" = false ∧
    ((register_node catOneNode "n1" "http://10.0.0.5:9000" "9.9.9.9" none 7).1.nodes.length =
       catOneNode.nodes.length ∧
     findNode (register_node catOneNode "n1" "http://10.0.0.5:9000" "9.9.9.9" none 7).1 "n1" =
       some { nodeN1 with url := "http://10.0.0.5:9000", last_seen := 7, is_healthy := true } ∧
     ("http://10.0.0.5:9000" = nodeN1.url → nodeN1.is_healthy = true →
       findNode (register_node catOneNode "n1" "http://10.0.0.5:9000" "9.9.9.9" none 7).1 "n1" =
         some { nodeN1 with last_seen := 7 })) :=
  ⟨by decide, by decide,
   C6_amended catOneNode "n1" "http://10.0.0.5:9000" "9.9.9.9" none 7 nodeN1
     (by decide) (by decide)⟩

/-! ## C9 amended -/

theorem replaceAllAux_of_no_substr (pat rep : List Char) :
    ∀ fuel l, hasSubstrL pat l = false → replaceAllAux pat rep fuel l = l := by
  intro fuel
  induction fuel with
  | zero => intro l _; rfl
  | succ n ih =>
    intro l h
    cases l with
    | nil => rfl
    | cons c rest =>
      have h' := h
      simp only [hasSubstrL, Bool.or_eq_false_iff] at h'
      obtain ⟨h1, h2⟩ := h'
      simp only [replaceAllAux, h1, Bool.false_eq_true, false_and, if_false]
      rw [ih rest h2]

theorem replaceAllL_cancel_pat (pat rep l : List Char) (hpat : pat ≠ [])
    (hl : hasSubstrL pat l = false) :
    replaceAllL pat rep (pat ++ l) = rep ++ l := by
  unfold replaceAllL
  cases pat with
  | nil => exact absurd rfl hpat
  | cons p ps =>
    have hpre : (p :: ps).isPrefixOf ((p :: ps) ++ l) = true := by
      rw [List.isPrefixOf_iff_prefix]
      exact List.prefix_append _ _
    simp only [List.cons_append, List.length_cons, List.length_append]
    simp only [replaceAllAux, ← List.cons_append, hpre, ne_eq,
      reduceCtorEq, not_false_eq_true, and_self, if_true]
    have hdrop : ((ps ++ l).drop ((p :: ps).length - 1)) = l := by
      simp only [List.length_cons, Nat.add_sub_cancel]
      exact List.drop_left ps l
    rw [hdrop, replaceAllAux_of_no_substr _ _ _ _ hl]

theorem stringDataAppend (s t : String) : (s ++ t).data = s.data ++ t.data := by
  cases s
  cases t
  rfl

/-- C9 amended: the proxy derives the node WebSocket URL by replacing
every occurrence of `http://` with the empty string and prefixing
`ws://`.  For an `http://` node URL (the only scheme the code handles)
this coincides with the claimed scheme swap; `https` URLs are not
rewritten to `wss://`. -/
theorem C9_amended (host cid : String)
    (h : hasSubstrL "http://".data host.data = false) :
    node_ws_url ("http://" ++ host) cid =
      "ws://" ++ host ++ "/ws/terminal/" ++ cid ∧
    claimed_ws_url ("http://" ++ host) cid =
      some (node_ws_url ("http://" ++ host) cid) := by
  have hrepl : pyReplace ("http://" ++ host) "http://" "" = host := by
    unfold pyReplace
    rw [stringDataAppend]
    rw [replaceAllL_cancel_pat _ _ _ (by decide) h]
    rfl
  have h1 : node_ws_url ("http://" ++ host) cid =
      "ws://" ++ host ++ "/ws/terminal/" ++ cid := by
    unfold node_ws_url
    rw [hrepl]
  refine ⟨h1, ?_⟩
  unfold claimed_ws_url
  have hno : ("https://".data.isPrefixOf ("http://" ++ host).data) = false := by
    rw [stringDataAppend]
    rfl
  have hyes : ("http://".data.isPrefixOf ("http://" ++ host).data) = true := by
    rw [stringDataAppend, List.isPrefixOf_iff_prefix]
    exact List.prefix_append _ _
  rw [hno, hyes]
  simp only [Bool.false_eq_true, if_false, if_true]
  rw [h1]
  have hdrop : (⟨("http://" ++ host).data.drop 7⟩ : String) = host := by
    rw [stringDataAppend]
    have h2 := List.drop_left "http://".data host.data
    simp only [List.length_cons] at h2
    exact congrArg String.mk h2
  rw [hdrop]

theorem C9_amended_witness :
    hasSubstrL "http://".data "10.0.0.5:9000".data = false ∧
    (node_ws_url ("http://" ++ "10.0.0.5:9000") "c1" =
       "ws://" ++ "10.0.0.5:9000" ++ "/ws/terminal/" ++ "c1" ∧
     claimed_ws_url ("http://" ++ "10.0.0.5:9000") "c1" =
       some (node_ws_url ("http://" ++ "10.0.0.5:9000") "c1")) :=
  ⟨by decide, C9_amended "10.0.0.5:9000" "c1" (by decide)⟩

/-! ## C2 amended -/

theorem extract_pos (v : PortsVal) (n : Nat) (hv : portsValPos v = true)
    (he : extract_host_port v = some n) : n ≠ 0 := by
  cases v with
  | plist items =>
    cases items with
    | nil => simp [extract_host_port] at he
    | cons first rest =>
      cases first with
      | hostPort m =>
        simp only [extract_host_port, Option.some.injEq] at he
        subst he
        simp only [portsValPos, List.all_cons, Bool.and_eq_true] at hv
        simpa using hv.1
      | noHostPort => simp [extract_host_port] at he
  | pint m =>
    simp only [extract_host_port, Option.some.injEq] at he
    subst he
    simpa [portsValPos] using hv
  | other => simp [extract_host_port] at he

theorem find?_congr_mem {α : Type} (p q : α → Bool) :
    ∀ l : List α, (∀ a ∈ l, p a = q a) → l.find? p = l.find? q
  | [], _ => rfl
  | a :: l, h => by
    have ha := h a (List.mem_cons_self a l)
    by_cases hp : p a = true
    · rw [List.find?_cons_of_pos _ hp, List.find?_cons_of_pos _ (ha ▸ hp)]
    · have hp' : p a = false := by simpa using hp
      rw [List.find?_cons_of_neg _ (by simp [hp']),
          List.find?_cons_of_neg _ (by simp [← ha, hp'])]
      exact find?_congr_mem p q l fun b hb => h b (List.mem_cons_of_mem a hb)

theorem strategyThree_eq_opt (pd : List (String × PortsVal))
    (hpos : portsPos pd = true) : strategyThree pd = strategyThreeOpt pd := by
  unfold strategyThree strategyThreeOpt
  have hcong := find?_congr_mem
    (fun kv : String × PortsVal => truthyPort (extract_host_port kv.2))
    (fun kv : String × PortsVal => (extract_host_port kv.2).isSome) pd ?_
  · rw [hcong]
  · intro kv hkv
    have hv : portsValPos kv.2 = true := by
      unfold portsPos at hpos
      exact List.all_eq_true.mp hpos kv hkv
    cases he : extract_host_port kv.2 with
    | none => simp [truthyPort, he]
    | some n =>
      have := extract_pos kv.2 n hv he
      simp [truthyPort, he, this]

theorem strategyThree_truthy (pd : List (String × PortsVal)) (m : Nat)
    (h : strategyThree pd = some m) : m ≠ 0 := by
  unfold strategyThree at h
  cases hf : pd.find? (fun kv => truthyPort (extract_host_port kv.2)) with
  | none => rw [hf] at h; simp at h
  | some kv =>
    rw [hf] at h
    have h2 : extract_host_port kv.2 = some m := h
    have hp := List.find?_some hf
    rw [h2] at hp
    simpa [truthyPort] using hp

theorem strategyTwo_mem (pd : List (String × PortsVal)) (base : String)
    (n : Nat) (h : strategyTwo pd base = some n) :
    ∃ kv ∈ pd, extract_host_port kv.2 = some n := by
  unfold strategyTwo at h
  cases hf : pd.find? (fun kv => stripProto kv.1 == base) with
  | none => rw [hf] at h; simp at h
  | some kv =>
    rw [hf] at h
    exact ⟨kv, List.mem_of_find?_eq_some hf, h⟩

/-- C2 amended: the selection strategies run in the claimed order
except that strategy 2 is attempted only when the exact key is absent
(it is the `elif` of the exact-key test); when the exact key is present
but yields no host port, selection falls directly to strategy 3.  With
that one change the layering matches the code on every ports dict whose
host ports are non-zero; and the claim's concrete scenario holds: a DB
launch whose ports response contains only `5432/tcp -> 32999` succeeds
with port 32999. -/
theorem C2_amended (pd : List (String × PortsVal)) (sp : String)
    (hpos : portsPos pd = true) :
    select_service_port pd sp = amended_select_port pd sp ∧
    (launch_db_service defaultDBLaunchRequest catOneNode worldDb5432 0).resp.status = 200 ∧
    (launch_db_service defaultDBLaunchRequest catOneNode worldDb5432 0).service =
      some ("c-abc", "db-deadbeef", "10.0.0.5", 32999) := by
  refine ⟨?_, by decide, by decide⟩
  have hmem_pos : ∀ kv ∈ pd, ∀ n, extract_host_port kv.2 = some n → n ≠ 0 := by
    intro kv hkv n he
    have hv : portsValPos kv.2 = true := by
      unfold portsPos at hpos
      exact List.all_eq_true.mp hpos kv hkv
    exact extract_pos kv.2 n hv he
  unfold select_service_port amended_select_port
  cases hl : lookupKey pd sp with
  | some v =>
    have hvmem : ∃ kv ∈ pd, kv.2 = v := by
      unfold lookupKey at hl
      cases hf : pd.find? (fun kv => kv.1 == sp) with
      | none => rw [hf] at hl; simp at hl
      | some kv =>
        rw [hf] at hl
        simp only [Option.map_some', Option.some.injEq] at hl
        exact ⟨kv, List.mem_of_find?_eq_some hf, hl⟩
    cases he : extract_host_port v with
    | some n =>
      obtain ⟨kv, hkv, hkv2⟩ := hvmem
      have hn : n ≠ 0 := hmem_pos kv hkv n (by rw [hkv2]; exact he)
      simp [he, truthyPort, hn]
    | none =>
      rw [strategyThree_eq_opt pd hpos]
      cases h3 : strategyThreeOpt pd with
      | some m =>
        have hm : m ≠ 0 := by
          apply strategyThree_truthy pd m
          rw [strategyThree_eq_opt pd hpos, h3]
        simp [he, truthyPort, hm]
      | none => simp [he, truthyPort]
  | none =>
    cases h2 : strategyTwo pd (stripProto sp) with
    | some n =>
      obtain ⟨kv, hkv, hkv2⟩ := strategyTwo_mem pd (stripProto sp) n h2
      have hn : n ≠ 0 := hmem_pos kv hkv n hkv2
      simp [h2, truthyPort, hn]
    | none =>
      rw [strategyThree_eq_opt pd hpos]
      cases h3 : strategyThreeOpt pd with
      | some m =>
        have hm : m ≠ 0 := by
          apply strategyThree_truthy pd m
          rw [strategyThree_eq_opt pd hpos, h3]
        simp [h2, truthyPort, hm]
      | none => simp [h2, truthyPort]

theorem C2_amended_witness :
    portsPos c2Ports = true ∧
    (select_service_port c2Ports "8010/tcp" =
       amended_select_port c2Ports "8010/tcp" ∧
     (launch_db_service defaultDBLaunchRequest catOneNode worldDb5432 0).resp.status = 200 ∧
     (launch_db_service defaultDBLaunchRequest catOneNode worldDb5432 0).service =
       some ("c-abc", "db-deadbeef", "10.0.0.5", 32999)) :=
  ⟨by decide, C2_amended c2Ports "8010/tcp" (by decide)⟩

/-! ## C8 amended -/

theorem waitAux_calls (node : NodeRow) (cid sp : String)
    (polls : Nat → HttpOutcome PortsResp) :
    ∀ fuel idx c, c ∈ (waitAux node cid sp polls idx fuel).2 →
      c = ports_poll_call node cid := by
  intro fuel
  induction fuel with
  | zero => intro idx c hc; simp [waitAux] at hc
  | succ n ih =>
    intro idx c hc
    rw [waitAux] at hc
    cases hp : poll_attempt node sp (polls idx) with
    | some r =>
      rw [hp] at hc
      simpa using hc
    | none =>
      rw [hp] at hc
      simp only [List.mem_cons] at hc
      rcases hc with rfl | hc
      · rfl
      · exact ih (idx + 1) c hc

theorem launch_calls_timeout (cfg : LaunchCfg) (cat : Catalog) (w : LaunchWorld)
    (now : Nat) (c : OutboundCall)
    (hc : c ∈ (launch_managed_service cfg cat w now).calls) :
    c.timeout = 60 ∨ c.timeout = 10 := by
  unfold launch_managed_service at hc
  cases hn : healthy_nodes cat with
  | nil => simp [hn] at hc
  | cons node rest =>
    simp only [hn] at hc
    cases hw : w.launch with
    | exn =>
      simp only [hw] at hc
      simp at hc
      simp [hc]
    | ok st body =>
      simp only [hw] at hc
      by_cases hst : (st != 200) = true
      · simp only [hst, if_true] at hc
        simp at hc
        simp [hc]
      · simp only [hst, Bool.false_eq_true, if_false] at hc
        have htail : ∀ d, d ∈ (wait_for_service_container node
            (if pyTruthyStr (if cfg.useIdKey then pyOrStr body.container_id body.id
                  else pyOrStr body.container_id body.container_id) then
               (if cfg.useIdKey then pyOrStr body.container_id body.id
                  else pyOrStr body.container_id body.container_id).getD ""
             else "container-" ++ w.gen_container_suffix)
            cfg.portKey w.polls 60).2 → d.timeout = 10 := by
          intro d hd
          have := waitAux_calls node _ cfg.portKey w.polls 60 0 d hd
          rw [this]
          rfl
        split at hc <;>
          · simp only [List.mem_cons] at hc
            rcases hc with rfl | hc
            · left; rfl
            · right; exact htail c hc

theorem launch_container_calls_timeout (cat : Catalog) (req : ContainerConfig)
    (w : LaunchWorld) (now : Nat) (c : OutboundCall)
    (hc : c ∈ (launch_container cat req w now).calls) : c.timeout = 60 := by
  unfold launch_container at hc
  repeat' split at hc
  all_goals simp_all

theorem get_container_status_timeout (cat : Catalog) (cid : String)
    (o : HttpOutcome Unit) (c : OutboundCall)
    (hc : c ∈ (get_container_status cat cid o).2) : c.timeout = 30 := by
  unfold get_container_status at hc
  repeat' split at hc
  all_goals simp_all

theorem list_bucket_files_timeout (cat : Catalog) (sid : String)
    (o : HttpOutcome Unit) (c : OutboundCall)
    (hc : c ∈ (list_bucket_files cat sid o).2) : c.timeout = 30 := by
  unfold list_bucket_files at hc
  repeat' split at hc
  all_goals simp_all

theorem upload_to_bucket_timeout (cat : Catalog) (sid : String)
    (o : HttpOutcome Unit) (c : OutboundCall)
    (hc : c ∈ (upload_to_bucket cat sid o).2) : c.timeout = 60 := by
  unfold upload_to_bucket at hc
  repeat' split at hc
  all_goals simp_all

theorem download_from_bucket_timeout (cat : Catalog) (sid filename : String)
    (o : HttpOutcome Unit) (c : OutboundCall)
    (hc : c ∈ (download_from_bucket cat sid filename o).2) : c.timeout = 60 := by
  unfold download_from_bucket at hc
  repeat' split at hc
  all_goals simp_all

theorem delete_from_bucket_timeout (cat : Catalog) (sid filename : String)
    (o : HttpOutcome Unit) (c : OutboundCall)
    (hc : c ∈ (delete_from_bucket cat sid filename o).2) : c.timeout = 30 := by
  unfold delete_from_bucket at hc
  repeat' split at hc
  all_goals simp_all

theorem execute_db_sql_query_timeout (cat : Catalog) (sid : String)
    (o : HttpOutcome Unit) (c : OutboundCall)
    (hc : c ∈ (execute_db_sql_query cat sid o).2) : c.timeout = 30 := by
  unfold execute_db_sql_query at hc
  repeat' split at hc
  all_goals simp_all

theorem save_nosql_entity_timeout (cat : Catalog) (sid collection : String)
    (o : HttpOutcome Unit) (c : OutboundCall)
    (hc : c ∈ (save_nosql_entity cat sid collection o).2) : c.timeout = 10 := by
  unfold save_nosql_entity at hc
  repeat' split at hc
  all_goals simp_all

theorem get_nosql_entity_timeout (cat : Catalog) (sid collection eid : String)
    (o : HttpOutcome Unit) (c : OutboundCall)
    (hc : c ∈ (get_nosql_entity cat sid collection eid o).2) : c.timeout = 10 := by
  unfold get_nosql_entity at hc
  repeat' split at hc
  all_goals simp_all

theorem add_queue_message_timeout (cat : Catalog) (sid : String)
    (o : HttpOutcome Unit) (c : OutboundCall)
    (hc : c ∈ (add_queue_message cat sid o).2) : c.timeout = 10 := by
  unfold add_queue_message at hc
  repeat' split at hc
  all_goals simp_all

theorem read_queue_messages_timeout (cat : Catalog) (sid : String) (lim : Nat)
    (o : HttpOutcome Unit) (c : OutboundCall)
    (hc : c ∈ (read_queue_messages cat sid lim o).2) : c.timeout = 10 := by
  unfold read_queue_messages at hc
  repeat' split at hc
  all_goals simp_all

theorem delete_queue_message_timeout (cat : Catalog) (sid mid : String)
    (o : HttpOutcome Unit) (c : OutboundCall)
    (hc : c ∈ (delete_queue_message cat sid mid o).2) : c.timeout = 10 := by
  unfold delete_queue_message at hc
  repeat' split at hc
  all_goals simp_all

theorem create_secret_timeout (cat : Catalog) (sid : String)
    (o : HttpOutcome Unit) (c : OutboundCall)
    (hc : c ∈ (create_secret cat sid o).2) : c.timeout = 10 := by
  unfold create_secret at hc
  repeat' split at hc
  all_goals simp_all

theorem get_secret_timeout (cat : Catalog) (sid sname : String)
    (o : HttpOutcome Unit) (c : OutboundCall)
    (hc : c ∈ (get_secret cat sid sname o).2) : c.timeout = 10 := by
  unfold get_secret at hc
  repeat' split at hc
  all_goals simp_all

theorem delete_secret_timeout (cat : Catalog) (sid sname : String)
    (o : HttpOutcome Unit) (c : OutboundCall)
    (hc : c ∈ (delete_secret cat sid sname o).2) : c.timeout = 10 := by
  unfold delete_secret at hc
  repeat' split at hc
  all_goals simp_all

theorem start_container_timeout (cat : Catalog) (cid : String)
    (o : HttpOutcome Unit) (c : OutboundCall)
    (hc : c ∈ (start_container cat cid o).2.2) : c.timeout = 60 := by
  unfold start_container at hc
  repeat' split at hc
  all_goals simp_all

theorem stop_container_timeout (cat : Catalog) (cid : String)
    (o : HttpOutcome Unit) (c : OutboundCall)
    (hc : c ∈ (stop_container cat cid o).2.2) : c.timeout = 60 := by
  unfold stop_container at hc
  repeat' split at hc
  all_goals simp_all

theorem restart_container_timeout (cat : Catalog) (cid : String)
    (a b d : HttpOutcome Unit) (c : OutboundCall)
    (hc : c ∈ (restart_container cat cid a b d).2.2) : c.timeout = 60 := by
  unfold restart_container at hc
  repeat' split at hc
  all_goals simp only [List.mem_cons, List.mem_singleton,
    List.not_mem_nil, or_false] at hc
  all_goals first
    | exact hc.elim
    | (rcases hc with rfl | rfl | rfl <;> rfl)

theorem remove_service_handler_timeout (k : ServiceKind) (flag : Bool)
    (nf : String) (cat : Catalog) (sid : String) (w : TeardownWorld)
    (c : OutboundCall)
    (hc : c ∈ (remove_service_handler k flag nf cat sid w).2.2) :
    c.timeout = 30 := by
  unfold remove_service_handler at hc
  cases hs : findService k cat sid with
  | none => simp [hs] at hc
  | some svc =>
    simp only [hs] at hc
    cases hcon : findContainer cat svc.container_id with
    | none => simp [hcon] at hc
    | some con =>
      simp only [hcon] at hc
      cases hn : findNode cat con.node_id with
      | none => simp [hn] at hc
      | some node =>
        simp only [hn] at hc
        by_cases hh : node.is_healthy = true
        · simp only [hh, if_true] at hc
          cases hw : w.stop with
          | exn =>
            simp only [hw] at hc
            simp at hc
            simp [hc]
          | ok st b =>
            simp only [hw] at hc
            by_cases hf2 : flag = true <;>
              · simp only [hf2, Bool.false_eq_true, if_true, if_false] at hc
                simp only [List.mem_cons, List.mem_singleton,
                  List.not_mem_nil, or_false] at hc
                rcases hc with rfl | rfl <;> rfl
        · simp only [Bool.not_eq_true] at hh
          simp [hh] at hc

theorem delete_container_timeout (cat : Catalog) (cid : String)
    (w : TeardownWorld) (c : OutboundCall)
    (hc : c ∈ (delete_container cat cid w).2.2) : c.timeout = 60 := by
  unfold delete_container at hc
  cases hcon : findContainer cat cid with
  | none => simp [hcon] at hc
  | some con =>
    simp only [hcon] at hc
    cases hn : findNode cat con.node_id with
    | none => simp [hn] at hc
    | some node =>
      simp only [hn] at hc
      by_cases hh : node.is_healthy = true
      · simp only [hh, if_true] at hc
        cases hw : w.stop with
        | exn =>
          simp only [hw] at hc
          simp at hc
          simp [hc]
        | ok st b =>
          simp only [hw] at hc
          simp only [List.mem_cons, List.mem_singleton,
            List.not_mem_nil, or_false] at hc
          rcases hc with rfl | rfl <;> rfl
      · simp only [Bool.not_eq_true] at hh
        simp [hh] at hc

/-- C8 amended: every outbound call carries an explicit per-call
timeout, but the classes differ from the claim: the node liveness
probe `GET /health` uses 30 s (not 10); the managed-service health
probe and readiness ports poll use 10 s; launch RPCs, container
start/stop/restart, delete-handler teardown, and bucket
upload/download use 60 s; container status reads, SQL query, bucket
file list/delete, and removal-handler teardown use 30 s; the
NoSQL/queue/secrets data forwards use 10 s. -/
theorem C8_amended :
    (∀ cat nid probe now, (health_check_node cat nid probe now).2.2.timeout = 30) ∧
    (∀ svc, (check_service_health_call svc).timeout = 10) ∧
    (∀ node cid, (ports_poll_call node cid).timeout = 10) ∧
    (∀ node cid, (restart_start_call node cid).timeout = 60) ∧
    (∀ cfg cat w now c, c ∈ (launch_managed_service cfg cat w now).calls →
       c.timeout = 60 ∨ c.timeout = 10) ∧
    (∀ cat req w now c, c ∈ (launch_container cat req w now).calls →
       c.timeout = 60) ∧
    (∀ cat cid o c, c ∈ (get_container_status cat cid o).2 → c.timeout = 30) ∧
    (∀ cat sid o c, c ∈ (list_bucket_files cat sid o).2 → c.timeout = 30) ∧
    (∀ cat sid o c, c ∈ (upload_to_bucket cat sid o).2 → c.timeout = 60) ∧
    (∀ cat sid fn o c, c ∈ (download_from_bucket cat sid fn o).2 →
       c.timeout = 60) ∧
    (∀ cat sid fn o c, c ∈ (delete_from_bucket cat sid fn o).2 →
       c.timeout = 30) ∧
    (∀ cat sid o c, c ∈ (execute_db_sql_query cat sid o).2 → c.timeout = 30) ∧
    (∀ cat sid col o c, c ∈ (save_nosql_entity cat sid col o).2 →
       c.timeout = 10) ∧
    (∀ cat sid col eid o c, c ∈ (get_nosql_entity cat sid col eid o).2 →
       c.timeout = 10) ∧
    (∀ cat sid o c, c ∈ (add_queue_message cat sid o).2 → c.timeout = 10) ∧
    (∀ cat sid lim o c, c ∈ (read_queue_messages cat sid lim o).2 →
       c.timeout = 10) ∧
    (∀ cat sid mid o c, c ∈ (delete_queue_message cat sid mid o).2 →
       c.timeout = 10) ∧
    (∀ cat sid o c, c ∈ (create_secret cat sid o).2 → c.timeout = 10) ∧
    (∀ cat sid sn o c, c ∈ (get_secret cat sid sn o).2 → c.timeout = 10) ∧
    (∀ cat sid sn o c, c ∈ (delete_secret cat sid sn o).2 → c.timeout = 10) ∧
    (∀ cat cid o c, c ∈ (start_container cat cid o).2.2 → c.timeout = 60) ∧
    (∀ cat cid o c, c ∈ (stop_container cat cid o).2.2 → c.timeout = 60) ∧
    (∀ cat cid a b d c, c ∈ (restart_container cat cid a b d).2.2 →
       c.timeout = 60) ∧
    (∀ k flag nf cat sid w c,
       c ∈ (remove_service_handler k flag nf cat sid w).2.2 →
       c.timeout = 30) ∧
    (∀ cat cid w c, c ∈ (delete_container cat cid w).2.2 → c.timeout = 60) := by
  refine ⟨fun _ _ _ _ => rfl, fun _ => rfl, fun _ _ => rfl, fun _ _ => rfl,
    launch_calls_timeout, launch_container_calls_timeout,
    get_container_status_timeout, list_bucket_files_timeout,
    upload_to_bucket_timeout, download_from_bucket_timeout,
    delete_from_bucket_timeout, execute_db_sql_query_timeout,
    save_nosql_entity_timeout, get_nosql_entity_timeout,
    add_queue_message_timeout, read_queue_messages_timeout,
    delete_queue_message_timeout, create_secret_timeout,
    get_secret_timeout, delete_secret_timeout, start_container_timeout,
    stop_container_timeout, restart_container_timeout,
    remove_service_handler_timeout, delete_container_timeout⟩

theorem C8_amended_witness :
    (⟨"POST", "http://10.0.0.5:9000/launchBucket", 60⟩ : OutboundCall) ∈
      (launch_managed_service bucketCfg catOneNode world404 0).calls ∧
    ((⟨"POST", "http://10.0.0.5:9000/launchBucket", 60⟩ : OutboundCall).timeout = 60 ∨
     (⟨"POST", "http://10.0.0.5:9000/launchBucket", 60⟩ : OutboundCall).timeout = 10) :=
  ⟨by decide,
   C8_amended.2.2.2.2.1 bucketCfg catOneNode world404 0
     ⟨"POST", "http://10.0.0.5:9000/launchBucket", 60⟩ (by decide)⟩

/-! ## C4 amended -/

/-- C4 amended: for a managed service found unhealthy the sweep
attempts exactly one restart: at most one start RPC, issued only when
the service, container and node rows resolve and the node is healthy.
Only a non-200 start response writes `failed`; a missing container, a
missing or unhealthy node, or an exception while contacting the node
leaves the status at `unhealthy` (with no start RPC issued in the
first two cases); a 200 response (exactly 200, not any 2xx) restores
`running/healthy` and sets the container to `running`. -/
theorem C4_amended (k : ServiceKind) (sid : String) (cat : Catalog)
    (healthRes startRes : HttpOutcome Unit) (now : Nat)
    (svc : ServiceRow)
    (hs : findService k cat sid = some svc)
    (hu : check_service_health healthRes = false) :
    (findContainer cat svc.container_id = none →
       (health_check_one k sid cat healthRes startRes now).2.2 = [check_service_health_call svc] ∧
       (findService k (health_check_one k sid cat healthRes startRes now).1 sid).map
           (fun s => s.status) = some "unhealthy") ∧
    (∀ con, findContainer cat svc.container_id = some con →
       findNode cat con.node_id = none →
       (health_check_one k sid cat healthRes startRes now).2.2 = [check_service_health_call svc] ∧
       (findService k (health_check_one k sid cat healthRes startRes now).1 sid).map
           (fun s => s.status) = some "unhealthy") ∧
    (∀ con node, findContainer cat svc.container_id = some con →
       findNode cat con.node_id = some node → node.is_healthy = false →
       (health_check_one k sid cat healthRes startRes now).2.2 = [check_service_health_call svc] ∧
       (findService k (health_check_one k sid cat healthRes startRes now).1 sid).map
           (fun s => s.status) = some "unhealthy") ∧
    (∀ con node, findContainer cat svc.container_id = some con →
       findNode cat con.node_id = some node → node.is_healthy = true →
       startRes = .exn →
       (health_check_one k sid cat healthRes startRes now).2.2 =
         [check_service_health_call svc, restart_start_call node con.container_id] ∧
       (findService k (health_check_one k sid cat healthRes startRes now).1 sid).map
           (fun s => s.status) = some "unhealthy") ∧
    (∀ con node st b, findContainer cat svc.container_id = some con →
       findNode cat con.node_id = some node → node.is_healthy = true →
       startRes = .ok st b → st ≠ 200 →
       (health_check_one k sid cat healthRes startRes now).2.2 =
         [check_service_health_call svc, restart_start_call node con.container_id] ∧
       (findService k (health_check_one k sid cat healthRes startRes now).1 sid).map
           (fun s => s.status) = some "failed" ∧
       (findService k (health_check_one k sid cat healthRes startRes now).1 sid).map
           (fun s => s.is_healthy) = some false) ∧
    (∀ con node b, findContainer cat svc.container_id = some con →
       findNode cat con.node_id = some node → node.is_healthy = true →
       startRes = .ok 200 b →
       (health_check_one k sid cat healthRes startRes now).2.2 =
         [check_service_health_call svc, restart_start_call node con.container_id] ∧
       (findService k (health_check_one k sid cat healthRes startRes now).1 sid).map
           (fun s => s.status) = some "running" ∧
       (findService k (health_check_one k sid cat healthRes startRes now).1 sid).map
           (fun s => s.is_healthy) = some true ∧
       (findContainer (health_check_one k sid cat healthRes startRes now).1
           svc.container_id).map (fun c => c.status) = some "running") := by
  have hmain : health_check_one k sid cat healthRes startRes now =
      ((restart_failed_service k sid (updateService k (updateService k cat sid fun s =>
        { s with is_healthy := false, last_health_check := now }) sid fun s =>
        { s with status := "unhealthy" }) startRes now).2.1,
       (restart_failed_service k sid (updateService k (updateService k cat sid fun s =>
        { s with is_healthy := false, last_health_check := now }) sid fun s =>
        { s with status := "unhealthy" }) startRes now).1,
       check_service_health_call svc ::
         (restart_failed_service k sid (updateService k (updateService k cat sid fun s =>
        { s with is_healthy := false, last_health_check := now }) sid fun s =>
        { s with status := "unhealthy" }) startRes now).2.2) := by
    unfold health_check_one
    rw [hs]
    simp only [hu, Bool.false_eq_true, if_false]
  have hsvc2 : findService k (updateService k (updateService k cat sid fun s =>
        { s with is_healthy := false, last_health_check := now }) sid fun s =>
        { s with status := "unhealthy" }) sid =
      some { svc with is_healthy := false, last_health_check := now, status := "unhealthy" } := by
    rw [findService_updateService k _ sid
          (fun s => { s with status := "unhealthy" }) (fun _ => rfl),
        findService_updateService k cat sid
          (fun s => { s with is_healthy := false, last_health_check := now })
          (fun _ => rfl),
        hs]
    rfl
  refine ⟨?_, ?_, ?_, ?_, ?_, ?_⟩
  · intro hcnone
    have hcon2 : findContainer (updateService k (updateService k cat sid fun s =>
        { s with is_healthy := false, last_health_check := now }) sid fun s =>
        { s with status := "unhealthy" }) svc.container_id = none := by
      rw [findContainer_updateService, findContainer_updateService, hcnone]
    have hrestart : restart_failed_service k sid (updateService k (updateService k cat sid fun s =>
        { s with is_healthy := false, last_health_check := now }) sid fun s =>
        { s with status := "unhealthy" }) startRes now =
        (false, (updateService k (updateService k cat sid fun s =>
        { s with is_healthy := false, last_health_check := now }) sid fun s =>
        { s with status := "unhealthy" }), []) := by
      unfold restart_failed_service
      rw [hsvc2]
      dsimp only
      rw [hcon2]
    rw [hmain, hrestart]
    exact ⟨rfl, by rw [hsvc2]; rfl⟩
  · intro con hcon hnnone
    have hcon2 : findContainer (updateService k (updateService k cat sid fun s =>
        { s with is_healthy := false, last_health_check := now }) sid fun s =>
        { s with status := "unhealthy" }) svc.container_id = some con := by
      rw [findContainer_updateService, findContainer_updateService, hcon]
    have hnode2 : findNode (updateService k (updateService k cat sid fun s =>
        { s with is_healthy := false, last_health_check := now }) sid fun s =>
        { s with status := "unhealthy" }) con.node_id = none := by
      rw [findNode_updateService, findNode_updateService, hnnone]
    have hrestart : restart_failed_service k sid (updateService k (updateService k cat sid fun s =>
        { s with is_healthy := false, last_health_check := now }) sid fun s =>
        { s with status := "unhealthy" }) startRes now =
        (false, (updateService k (updateService k cat sid fun s =>
        { s with is_healthy := false, last_health_check := now }) sid fun s =>
        { s with status := "unhealthy" }), []) := by
      unfold restart_failed_service
      rw [hsvc2]
      dsimp only
      rw [hcon2]
      dsimp only
      rw [hnode2]
    rw [hmain, hrestart]
    exact ⟨rfl, by rw [hsvc2]; rfl⟩
  · intro con node hcon hnode hnh
    have hcon2 : findContainer (updateService k (updateService k cat sid fun s =>
        { s with is_healthy := false, last_health_check := now }) sid fun s =>
        { s with status := "unhealthy" }) svc.container_id = some con := by
      rw [findContainer_updateService, findContainer_updateService, hcon]
    have hnode2 : findNode (updateService k (updateService k cat sid fun s =>
        { s with is_healthy := false, last_health_check := now }) sid fun s =>
        { s with status := "unhealthy" }) con.node_id = some node := by
      rw [findNode_updateService, findNode_updateService, hnode]
    have hrestart : restart_failed_service k sid (updateService k (updateService k cat sid fun s =>
        { s with is_healthy := false, last_health_check := now }) sid fun s =>
        { s with status := "unhealthy" }) startRes now =
        (false, (updateService k (updateService k cat sid fun s =>
        { s with is_healthy := false, last_health_check := now }) sid fun s =>
        { s with status := "unhealthy" }), []) := by
      unfold restart_failed_service
      rw [hsvc2]
      dsimp only
      rw [hcon2]
      dsimp only
      rw [hnode2]
      dsimp only
      rw [hnh]
      rfl
    rw [hmain, hrestart]
    exact ⟨rfl, by rw [hsvc2]; rfl⟩
  · intro con node hcon hnode hnh hx
    have hcon2 : findContainer (updateService k (updateService k cat sid fun s =>
        { s with is_healthy := false, last_health_check := now }) sid fun s =>
        { s with status := "unhealthy" }) svc.container_id = some con := by
      rw [findContainer_updateService, findContainer_updateService, hcon]
    have hnode2 : findNode (updateService k (updateService k cat sid fun s =>
        { s with is_healthy := false, last_health_check := now }) sid fun s =>
        { s with status := "unhealthy" }) con.node_id = some node := by
      rw [findNode_updateService, findNode_updateService, hnode]
    have hrestart : restart_failed_service k sid (updateService k (updateService k cat sid fun s =>
        { s with is_healthy := false, last_health_check := now }) sid fun s =>
        { s with status := "unhealthy" }) startRes now =
        (false, (updateService k (updateService k cat sid fun s =>
        { s with is_healthy := false, last_health_check := now }) sid fun s =>
        { s with status := "unhealthy" }), [restart_start_call node con.container_id]) := by
      unfold restart_failed_service
      rw [hsvc2]
      dsimp only
      rw [hcon2]
      dsimp only
      rw [hnode2]
      dsimp only
      rw [hnh, hx]
      rfl
    rw [hmain, hrestart]
    exact ⟨rfl, by rw [hsvc2]; rfl⟩
  · intro con node st b hcon hnode hnh hx hst
    have hcon2 : findContainer (updateService k (updateService k cat sid fun s =>
        { s with is_healthy := false, last_health_check := now }) sid fun s =>
        { s with status := "unhealthy" }) svc.container_id = some con := by
      rw [findContainer_updateService, findContainer_updateService, hcon]
    have hnode2 : findNode (updateService k (updateService k cat sid fun s =>
        { s with is_healthy := false, last_health_check := now }) sid fun s =>
        { s with status := "unhealthy" }) con.node_id = some node := by
      rw [findNode_updateService, findNode_updateService, hnode]
    have hst2 : (st == 200) = false := by simpa using hst
    have hrestart : restart_failed_service k sid (updateService k (updateService k cat sid fun s =>
        { s with is_healthy := false, last_health_check := now }) sid fun s =>
        { s with status := "unhealthy" }) startRes now =
        (false,
         updateService k (updateService k (updateService k cat sid fun s =>
        { s with is_healthy := false, last_health_check := now }) sid fun s =>
        { s with status := "unhealthy" }) sid fun s =>
           { s with is_healthy := false, status := "failed" },
         [restart_start_call node con.container_id]) := by
      unfold restart_failed_service
      rw [hsvc2]
      dsimp only
      rw [hcon2]
      dsimp only
      rw [hnode2]
      dsimp only
      rw [hnh, hx]
      dsimp only
      rw [hst2]
      rfl
    rw [hmain, hrestart]
    refine ⟨rfl, ?_, ?_⟩ <;>
      · rw [findService_updateService k (updateService k (updateService k cat sid fun s =>
        { s with is_healthy := false, last_health_check := now }) sid fun s =>
        { s with status := "unhealthy" }) sid
            (fun s => { s with is_healthy := false, status := "failed" })
            (fun _ => rfl), hsvc2]
        rfl
  · intro con node b hcon hnode hnh hx
    have hcid : con.container_id = svc.container_id := by
      unfold findContainer at hcon
      have h2 := List.find?_some hcon
      simpa using h2
    have hcon2 : findContainer (updateService k (updateService k cat sid fun s =>
        { s with is_healthy := false, last_health_check := now }) sid fun s =>
        { s with status := "unhealthy" }) svc.container_id = some con := by
      rw [findContainer_updateService, findContainer_updateService, hcon]
    have hnode2 : findNode (updateService k (updateService k cat sid fun s =>
        { s with is_healthy := false, last_health_check := now }) sid fun s =>
        { s with status := "unhealthy" }) con.node_id = some node := by
      rw [findNode_updateService, findNode_updateService, hnode]
    have hrestart : restart_failed_service k sid (updateService k (updateService k cat sid fun s =>
        { s with is_healthy := false, last_health_check := now }) sid fun s =>
        { s with status := "unhealthy" }) startRes now =
        (true,
         updateContainer
           (updateService k (updateService k (updateService k cat sid fun s =>
        { s with is_healthy := false, last_health_check := now }) sid fun s =>
        { s with status := "unhealthy" }) sid fun s =>
             { s with is_healthy := true, status := "running", last_health_check := now })
           con.container_id (fun c => { c with status := "running" }),
         [restart_start_call node con.container_id]) := by
      unfold restart_failed_service
      rw [hsvc2]
      dsimp only
      rw [hcon2]
      dsimp only
      rw [hnode2]
      dsimp only
      rw [hnh, hx]
      dsimp only
      rfl
    have hcon2x : findContainer (updateService k (updateService k cat sid fun s =>
        { s with is_healthy := false, last_health_check := now }) sid fun s =>
        { s with status := "unhealthy" }) con.container_id = some con := by
      rw [hcid]
      exact hcon2
    rw [hmain, hrestart]
    refine ⟨rfl, ?_, ?_, ?_⟩
    · rw [findService_updateContainer,
          findService_updateService k (updateService k (updateService k cat sid fun s =>
        { s with is_healthy := false, last_health_check := now }) sid fun s =>
        { s with status := "unhealthy" }) sid
            (fun s => { s with is_healthy := true, status := "running", last_health_check := now })
            (fun _ => rfl), hsvc2]
      rfl
    · rw [findService_updateContainer,
          findService_updateService k (updateService k (updateService k cat sid fun s =>
        { s with is_healthy := false, last_health_check := now }) sid fun s =>
        { s with status := "unhealthy" }) sid
            (fun s => { s with is_healthy := true, status := "running", last_health_check := now })
            (fun _ => rfl), hsvc2]
      rfl
    · rw [← hcid,
          findContainer_updateContainer _ con.container_id
            (fun c => { c with status := "running" }) (fun _ => rfl),
          findContainer_updateService, hcon2x]
      rfl

theorem C4_amended_witness :
    findService .bucket catSweep "bucket-1" = some (mkService "bucket-1" true) ∧
    check_service_health (.ok 500 ()) = false ∧
    ((findContainer catSweep (mkService "bucket-1" true).container_id = none →
        (health_check_one .bucket "bucket-1" catSweep (.ok 500 ()) (.ok 503 ()) 5).2.2 = [check_service_health_call (mkService "bucket-1" true)] ∧
        (findService .bucket (health_check_one .bucket "bucket-1" catSweep (.ok 500 ()) (.ok 503 ()) 5).1 "bucket-1").map (fun s => s.status) =
          some "unhealthy") ∧
     (∀ con, findContainer catSweep (mkService "bucket-1" true).container_id = some con →
        findNode catSweep con.node_id = none →
        (health_check_one .bucket "bucket-1" catSweep (.ok 500 ()) (.ok 503 ()) 5).2.2 = [check_service_health_call (mkService "bucket-1" true)] ∧
        (findService .bucket (health_check_one .bucket "bucket-1" catSweep (.ok 500 ()) (.ok 503 ()) 5).1 "bucket-1").map (fun s => s.status) =
          some "unhealthy") ∧
     (∀ con node, findContainer catSweep (mkService "bucket-1" true).container_id = some con →
        findNode catSweep con.node_id = some node → node.is_healthy = false →
        (health_check_one .bucket "bucket-1" catSweep (.ok 500 ()) (.ok 503 ()) 5).2.2 = [check_service_health_call (mkService "bucket-1" true)] ∧
        (findService .bucket (health_check_one .bucket "bucket-1" catSweep (.ok 500 ()) (.ok 503 ()) 5).1 "bucket-1").map (fun s => s.status) =
          some "unhealthy") ∧
     (∀ con node, findContainer catSweep (mkService "bucket-1" true).container_id = some con →
        findNode catSweep con.node_id = some node → node.is_healthy = true →
        (.ok 503 () : HttpOutcome Unit) = .exn →
        (health_check_one .bucket "bucket-1" catSweep (.ok 500 ()) (.ok 503 ()) 5).2.2 = [check_service_health_call (mkService "bucket-1" true),
                    restart_start_call node con.container_id] ∧
        (findService .bucket (health_check_one .bucket "bucket-1" catSweep (.ok 500 ()) (.ok 503 ()) 5).1 "bucket-1").map (fun s => s.status) =
          some "unhealthy") ∧
     (∀ con node st b, findContainer catSweep (mkService "bucket-1" true).container_id = some con →
        findNode catSweep con.node_id = some node → node.is_healthy = true →
        (.ok 503 () : HttpOutcome Unit) = .ok st b → st ≠ 200 →
        (health_check_one .bucket "bucket-1" catSweep (.ok 500 ()) (.ok 503 ()) 5).2.2 = [check_service_health_call (mkService "bucket-1" true),
                    restart_start_call node con.container_id] ∧
        (findService .bucket (health_check_one .bucket "bucket-1" catSweep (.ok 500 ()) (.ok 503 ()) 5).1 "bucket-1").map (fun s => s.status) =
          some "failed" ∧
        (findService .bucket (health_check_one .bucket "bucket-1" catSweep (.ok 500 ()) (.ok 503 ()) 5).1 "bucket-1").map (fun s => s.is_healthy) =
          some false) ∧
     (∀ con node b, findContainer catSweep (mkService "bucket-1" true).container_id = some con →
        findNode catSweep con.node_id = some node → node.is_healthy = true →
        (.ok 503 () : HttpOutcome Unit) = .ok 200 b →
        (health_check_one .bucket "bucket-1" catSweep (.ok 500 ()) (.ok 503 ()) 5).2.2 = [check_service_health_call (mkService "bucket-1" true),
                    restart_start_call node con.container_id] ∧
        (findService .bucket (health_check_one .bucket "bucket-1" catSweep (.ok 500 ()) (.ok 503 ()) 5).1 "bucket-1").map (fun s => s.status) =
          some "running" ∧
        (findService .bucket (health_check_one .bucket "bucket-1" catSweep (.ok 500 ()) (.ok 503 ()) 5).1 "bucket-1").map (fun s => s.is_healthy) =
          some true ∧
        (findContainer (health_check_one .bucket "bucket-1" catSweep (.ok 500 ()) (.ok 503 ()) 5).1
            (mkService "bucket-1" true).container_id).map (fun c => c.status) =
          some "running")) :=
  ⟨by decide, by decide,
   C4_amended .bucket "bucket-1" catSweep (.ok 500 ()) (.ok 503 ()) 5
     (mkService "bucket-1" true) (by decide) (by decide)⟩

/-! ## C10 -/

theorem noLaunching_append (cat : Catalog) (r : ContainerRow)
    (hr : r.status ≠ "launching") (h : noLaunching cat) :
    noLaunching { cat with containers := cat.containers ++ [r] } := by
  intro c hc
  dsimp only at hc
  simp only [List.mem_append, List.mem_singleton] at hc
  rcases hc with hc | rfl
  · exact h c hc
  · exact hr

theorem noLaunching_updateContainer (cat : Catalog) (cid : String) (st : String)
    (hst : st ≠ "launching") (h : noLaunching cat) :
    noLaunching (updateContainer cat cid fun c => { c with status := st }) := by
  intro c hc
  simp only [updateContainer, List.mem_map] at hc
  obtain ⟨a, ha, rfl⟩ := hc
  split
  · exact hst
  · exact h a ha

theorem noLaunching_updateService (k : ServiceKind) (cat : Catalog)
    (sid : String) (f : ServiceRow → ServiceRow) (h : noLaunching cat) :
    noLaunching (updateService k cat sid f) := by
  intro c hc
  rw [containers_updateService] at hc
  exact h c hc

theorem noLaunching_setServices (k : ServiceKind) (cat : Catalog)
    (l : List ServiceRow) (h : noLaunching cat) :
    noLaunching (setServices k cat l) := by
  intro c hc
  rw [containers_setServices] at hc
  exact h c hc

theorem noLaunching_deleteContainer (cat : Catalog) (cid : String)
    (h : noLaunching cat) : noLaunching (deleteContainer cat cid) := by
  intro c hc
  unfold deleteContainer at hc
  dsimp only at hc
  exact h c (List.mem_of_mem_filter hc)

theorem noLaunching_deleteService (k : ServiceKind) (cat : Catalog)
    (sid : String) (h : noLaunching cat) :
    noLaunching (deleteService k cat sid) := by
  intro c hc
  rw [containers_deleteService] at hc
  exact h c hc

theorem launch_managed_noLaunching (cfg : LaunchCfg) (cat : Catalog)
    (w : LaunchWorld) (now : Nat) (h : noLaunching cat) :
    noLaunching (launch_managed_service cfg cat w now).cat := by
  unfold launch_managed_service
  split
  · exact h
  · split
    · exact h
    · split
      · exact h
      · dsimp only
        split
        · refine noLaunching_setServices _ _ _
            (noLaunching_append _ _ ?_ h)
          dsimp only
          decide
        · refine noLaunching_append _ _ ?_ h
          dsimp only
          decide

theorem launch_container_noLaunching (cat : Catalog) (req : ContainerConfig)
    (w : LaunchWorld) (now : Nat) (h : noLaunching cat) :
    noLaunching (launch_container cat req w now).cat := by
  unfold launch_container
  split
  · exact h
  · split
    · exact h
    · split
      · exact h
      · dsimp only
        refine noLaunching_append _ _ ?_ h
        dsimp only
        decide

theorem start_container_noLaunching (cat : Catalog) (cid : String)
    (o : HttpOutcome Unit) (h : noLaunching cat) :
    noLaunching (start_container cat cid o).2.1 := by
  unfold start_container
  repeat' split
  all_goals first
    | exact h
    | (refine noLaunching_updateContainer _ _ _ ?_ h; decide)

theorem stop_container_noLaunching (cat : Catalog) (cid : String)
    (o : HttpOutcome Unit) (h : noLaunching cat) :
    noLaunching (stop_container cat cid o).2.1 := by
  unfold stop_container
  repeat' split
  all_goals first
    | exact h
    | (refine noLaunching_updateContainer _ _ _ ?_ h; decide)

theorem restart_container_noLaunching (cat : Catalog) (cid : String)
    (a b d : HttpOutcome Unit) (h : noLaunching cat) :
    noLaunching (restart_container cat cid a b d).2.1 := by
  unfold restart_container
  repeat' split
  all_goals first
    | exact h
    | (refine noLaunching_updateContainer _ _ _ ?_ h; decide)

theorem delete_container_noLaunching (cat : Catalog) (cid : String)
    (w : TeardownWorld) (h : noLaunching cat) :
    noLaunching (delete_container cat cid w).2.1 := by
  unfold delete_container
  repeat' split
  all_goals first
    | exact h
    | exact noLaunching_deleteContainer _ _ h

theorem restart_failed_service_noLaunching (k : ServiceKind) (sid : String)
    (cat : Catalog) (startRes : HttpOutcome Unit) (now : Nat)
    (h : noLaunching cat) :
    noLaunching (restart_failed_service k sid cat startRes now).2.1 := by
  unfold restart_failed_service
  repeat' split
  all_goals first
    | exact h
    | (refine noLaunching_updateContainer _ _ _ ?_
        (noLaunching_updateService _ _ _ _ h); decide)
    | exact noLaunching_updateService _ _ _ _ h

theorem health_check_one_noLaunching (k : ServiceKind) (sid : String)
    (cat : Catalog) (healthRes startRes : HttpOutcome Unit) (now : Nat)
    (h : noLaunching cat) :
    noLaunching (health_check_one k sid cat healthRes startRes now).1 := by
  unfold health_check_one
  split
  · exact h
  · dsimp only
    split
    · exact noLaunching_updateService _ _ _ _
        (noLaunching_updateService _ _ _ _ h)
    · exact restart_failed_service_noLaunching _ _ _ _ _
        (noLaunching_updateService _ _ _ _
          (noLaunching_updateService _ _ _ _ h))

theorem remove_service_handler_noLaunching (k : ServiceKind) (flag : Bool)
    (nf : String) (cat : Catalog) (sid : String) (w : TeardownWorld)
    (h : noLaunching cat) :
    noLaunching (remove_service_handler k flag nf cat sid w).2.1 := by
  unfold remove_service_handler
  cases hsv : findService k cat sid with
  | none => simp only [hsv]; exact h
  | some svc =>
    simp only [hsv]
    cases hcon : findContainer cat svc.container_id with
    | none =>
      simp only [hcon]
      exact noLaunching_deleteService _ _ _ h
    | some con =>
      simp only [hcon]
      exact noLaunching_deleteService _ _ _
        (noLaunching_deleteContainer _ _ h)

/-- C10: on every launch path — the generic container launch and all
five managed-service kinds — the container row is written with
`status = "running"` as soon as the node acknowledges the launch, so a
managed-service container whose port never becomes ready still has a
row with status `"running"` (the appended row is there for every
polling outcome); and no embedded operation ever stores the lifecycle
value `"launching"` in a container status field. -/
theorem C10_container_running_before_ready
    (cfg : LaunchCfg) (cat : Catalog) (w : LaunchWorld) (now : Nat)
    (body : LaunchBody) (node : NodeRow) (rest : List NodeRow)
    (hack : w.launch = .ok 200 body)
    (hn : healthy_nodes cat = node :: rest) :
    (launch_managed_service cfg cat w now).cat.containers.length =
      cat.containers.length + 1 ∧
    ((launch_managed_service cfg cat w now).cat.containers.getLast?.map
        (fun c => c.status) = some "running") ∧
    (∀ req, (launch_container cat req w now).cat.containers.length =
       cat.containers.length + 1) ∧
    (∀ req, ((launch_container cat req w now).cat.containers.getLast?.map
        (fun c => c.status)) = some "running") ∧
    (∀ cfg2 cat2 w2 now2, noLaunching cat2 →
       noLaunching (launch_managed_service cfg2 cat2 w2 now2).cat) ∧
    (∀ cat2 req w2 now2, noLaunching cat2 →
       noLaunching (launch_container cat2 req w2 now2).cat) ∧
    (∀ cat2 cid o, noLaunching cat2 →
       noLaunching (start_container cat2 cid o).2.1) ∧
    (∀ cat2 cid o, noLaunching cat2 →
       noLaunching (stop_container cat2 cid o).2.1) ∧
    (∀ cat2 cid a b d, noLaunching cat2 →
       noLaunching (restart_container cat2 cid a b d).2.1) ∧
    (∀ cat2 cid w2, noLaunching cat2 →
       noLaunching (delete_container cat2 cid w2).2.1) ∧
    (∀ k sid cat2 s n2, noLaunching cat2 →
       noLaunching (restart_failed_service k sid cat2 s n2).2.1) ∧
    (∀ k sid cat2 hres sres n2, noLaunching cat2 →
       noLaunching (health_check_one k sid cat2 hres sres n2).1) ∧
    (∀ k flag nf cat2 sid w2, noLaunching cat2 →
       noLaunching (remove_service_handler k flag nf cat2 sid w2).2.1) := by
  refine ⟨?_, ?_, ?_, ?_,
    fun cfg2 cat2 w2 now2 => launch_managed_noLaunching cfg2 cat2 w2 now2,
    fun cat2 req w2 now2 => launch_container_noLaunching cat2 req w2 now2,
    fun cat2 cid o => start_container_noLaunching cat2 cid o,
    fun cat2 cid o => stop_container_noLaunching cat2 cid o,
    fun cat2 cid a b d => restart_container_noLaunching cat2 cid a b d,
    fun cat2 cid w2 => delete_container_noLaunching cat2 cid w2,
    fun k sid cat2 s n2 => restart_failed_service_noLaunching k sid cat2 s n2,
    fun k sid cat2 hres sres n2 =>
      health_check_one_noLaunching k sid cat2 hres sres n2,
    fun k flag nf cat2 sid w2 =>
      remove_service_handler_noLaunching k flag nf cat2 sid w2⟩
  · unfold launch_managed_service
    simp only [hn, hack, bne_self_eq_false, Bool.false_eq_true, if_false]
    split
    · rw [containers_setServices]
      dsimp only
      simp [List.length_append]
    · dsimp only
      simp [List.length_append]
  · unfold launch_managed_service
    simp only [hn, hack, bne_self_eq_false, Bool.false_eq_true, if_false]
    split
    · rw [containers_setServices]
      dsimp only
      rw [List.getLast?_concat]
      rfl
    · dsimp only
      rw [List.getLast?_concat]
      rfl
  · intro req
    unfold launch_container
    simp only [hn, hack, bne_self_eq_false, Bool.false_eq_true, if_false]
    simp [List.length_append]
  · intro req
    unfold launch_container
    simp only [hn, hack, bne_self_eq_false, Bool.false_eq_true, if_false]
    rw [List.getLast?_concat]
    rfl

theorem C10_container_running_before_ready_witness :
    worldDb5432.launch = .ok 200 ⟨some "c-abc", none⟩ ∧
    healthy_nodes catOneNode = nodeN1 :: [] ∧
    ((launch_managed_service bucketCfg catOneNode worldDb5432 0).cat.containers.length =
       catOneNode.containers.length + 1 ∧
     ((launch_managed_service bucketCfg catOneNode worldDb5432 0).cat.containers.getLast?.map
         (fun c => c.status) = some "running") ∧
     (∀ req, (launch_container catOneNode req worldDb5432 0).cat.containers.length =
        catOneNode.containers.length + 1) ∧
     (∀ req, ((launch_container catOneNode req worldDb5432 0).cat.containers.getLast?.map
         (fun c => c.status)) = some "running") ∧
     (∀ cfg2 cat2 w2 now2, noLaunching cat2 →
        noLaunching (launch_managed_service cfg2 cat2 w2 now2).cat) ∧
     (∀ cat2 req w2 now2, noLaunching cat2 →
        noLaunching (launch_container cat2 req w2 now2).cat) ∧
     (∀ cat2 cid o, noLaunching cat2 →
        noLaunching (start_container cat2 cid o).2.1) ∧
     (∀ cat2 cid o, noLaunching cat2 →
        noLaunching (stop_container cat2 cid o).2.1) ∧
     (∀ cat2 cid a b d, noLaunching cat2 →
        noLaunching (restart_container cat2 cid a b d).2.1) ∧
     (∀ cat2 cid w2, noLaunching cat2 →
        noLaunching (delete_container cat2 cid w2).2.1) ∧
     (∀ k sid cat2 s n2, noLaunching cat2 →
        noLaunching (restart_failed_service k sid cat2 s n2).2.1) ∧
     (∀ k sid cat2 hres sres n2, noLaunching cat2 →
        noLaunching (health_check_one k sid cat2 hres sres n2).1) ∧
     (∀ k flag nf cat2 sid w2, noLaunching cat2 →
        noLaunching (remove_service_handler k flag nf cat2 sid w2).2.1)) :=
  ⟨rfl, by decide,
   C10_container_running_before_ready bucketCfg catOneNode worldDb5432 0
     ⟨some "c-abc", none⟩ nodeN1 [] rfl (by decide)⟩

end UWS
